import Mathlib

/-!
Verification of the cognito-at-edge flow controller (`src/dist/index.js`).

The development shallowly embeds the `Authenticator` class: each method
becomes a Lean function over explicit configuration, request and
environment values.  Network calls (token exchange, refresh, revoke) are
modelled by oracles in an `Env` record, and every flow additionally
returns the trace of network calls it made, so that ordering and
side-effect claims can be stated.  The JWT verifier, an external
collaborator, is modelled by the `Env.verify` oracle.

The cookie and CSRF utility modules (`./util/cookie`, `./util/csrf`) are
not part of the provided sources; the handful of functions the flow
controller uses from them (`Cookies.parse`/`serialize`, `getCookieDomain`,
`signNonce`, `generateCSRFTokens`, `urlSafe`) are modelled from the
specification, as documented on each definition.
-/

/-- Decidable equality for `Except`, so that concrete runs of the flows
can be checked by `decide`. -/
instance exceptDecEq {ε α : Type} [DecidableEq ε] [DecidableEq α] :
    DecidableEq (Except ε α) := fun x y =>
  match x, y with
  | .ok a, .ok b =>
    if h : a = b then .isTrue (by rw [h]) else .isFalse (by simp [h])
  | .error e, .error f =>
    if h : e = f then .isTrue (by rw [h]) else .isFalse (by simp [h])
  | .ok _, .error _ => .isFalse (by simp)
  | .error _, .ok _ => .isFalse (by simp)

namespace CognitoAtEdge

/-- JavaScript truthiness of a possibly-absent string: `undefined` and the
empty string are falsy. -/
def truthy : Option String → Bool
  | none => false
  | some s => decide (s ≠ "")

/-- JavaScript `a || b` over possibly-absent strings, with a string default. -/
def jsOrStr (a : Option String) (b : String) : String :=
  match a with
  | some s => if s = "" then b else s
  | none => b

/-- JS `String.prototype.startsWith`: character-level test that `p` is a
leading segment of `s`. -/
def strStarts (s p : String) : Bool := decide (p.data <+: s.data)

/-- JS `String.prototype.endsWith`: character-level test that `p` is a
trailing segment of `s`. -/
def strEnds (s p : String) : Bool := decide (p.data <:+ s.data)

/-- A single parsed cookie (name/value pair), the output shape of the
cookie utility module's `Cookies.parse`. -/
structure Cookie where
  name : String
  value : String
deriving DecidableEq

/-- SameSite attribute values (`SAME_SITE_VALUES` of the cookie util). -/
inductive SameSite where
  | strict
  | lax
  | none_
deriving DecidableEq

/-- Cookie attribute set: domain, path, expiry (a millisecond timestamp,
standing for the JS `Date`), `secure`, `httpOnly`, `sameSite`. -/
structure CookieAttributes where
  domain : Option String
  expires : Option Nat
  secure : Bool
  httpOnly : Bool
  sameSite : Option SameSite
  path : Option String
deriving DecidableEq

/-- Modelled from the spec: the cookie util's `Cookies.serialize` renders a
name/value/attribute triple into one `Set-Cookie` string, each attribute
rendered only when set.  The rendering is injective, so a serialized
cookie is represented by the triple itself. -/
structure SetCookie where
  name : String
  value : Option String
  attrs : CookieAttributes
deriving DecidableEq

/-- Modelled from the spec: the cookie util's `getCookieDomain` picks the
cookie `Domain` attribute: none when domains are disabled, else the
configured override or the request host. -/
def getCookieDomain (cfDomain : String) (disableCookieDomain : Bool)
    (cookieDomain : Option String) : Option String :=
  if disableCookieDomain then none else some (cookieDomain.getD cfDomain)

/-- Modelled from the spec: a value of the OAuth `state` query parameter.
The csrf util encodes the object with nonce and redirect uri as a URL-safe
base64 JSON string; since that codec is injective, a state string is
represented by its parse result: `enc nonce redirectUri` stands for any
string that decodes to the object, `raw s` for a string `s` that does not. -/
inductive StateParam where
  | raw (s : String)
  | enc (nonce redirectUri : String)
deriving DecidableEq

/-- Modelled from the spec: rendering of a state value back into the query
string appended to the authorize URL (the csrf util's urlSafe base64 JSON
encoding for `enc`, the string itself for `raw`). -/
def StateParam.render : StateParam → String
  | .raw s => s
  | .enc nonce redirectUri => "b64json(" ++ nonce ++ ";" ++ redirectUri ++ ")"

/-- Query parameters of a request, the output shape of node's
`querystring.parse` restricted to the keys the flow controller reads. -/
structure QueryParams where
  code : Option String
  state : Option StateParam
  redirect_uri : Option String
deriving DecidableEq

/-- The parts of a Lambda@Edge request event the flow controller reads:
`request.uri`, the raw query string, its parse, the host header, and the
parsed cookie headers (`none` when no cookie header is present). -/
structure Request where
  uri : String
  querystring : String
  params : QueryParams
  host : String
  cookies : Option (List Cookie)
deriving DecidableEq

/-- The parts of a CloudFront response the flow controller writes: status,
`Location`, `Cache-Control`, `Pragma` and `Set-Cookie` headers (an absent
header is `none`, resp. the empty cookie list), and the optional body. -/
structure Response where
  status : String
  location : Option String
  cacheControl : Option String
  pragma : Option String
  setCookies : List SetCookie
  body : Option String
deriving DecidableEq

/-- Result of the default gate: forward the (unchanged) request to the
origin, or answer with a generated response. -/
inductive HandleResult where
  | forward (request : Request)
  | response (r : Response)
deriving DecidableEq

/-- Token endpoint response body fields (`id_token`, `access_token`,
`refresh_token`), each possibly absent. -/
structure TokenResp where
  id_token : Option String
  access_token : Option String
  refresh_token : Option String
deriving DecidableEq

/-- The token set the flow controller passes around (`Tokens`): each of
`idToken`, `accessToken`, `refreshToken` possibly absent. -/
structure TokenSet where
  idToken : Option String := none
  accessToken : Option String := none
  refreshToken : Option String := none
deriving DecidableEq

/-- CSRF tokens extracted from request cookies by
`_getCSRFTokensFromCookie`: each field absent when no matching cookie. -/
structure CSRFCookieTokens where
  nonce : Option String := none
  nonceHmac : Option String := none
  pkce : Option String := none
deriving DecidableEq

/-- Error kinds thrown by the flow controller, one per distinct `throw`
site (the JS code throws `Error` values; the kinds are distinguished here
by their message). -/
inductive AuthError where
  | cookiesAbsent
  | noTokens
  | verifyFailed
  | csrfDisabled
  | stateParseError
  | missingNonceCookie
  | nonceMismatch
  | missingPkceCookie
  | signatureMismatch
  | exchangeFailed
  | refreshFailed
  | revokeFailed
  | parseAuthPathNotSet
  | missingCode
deriving DecidableEq

/-- Textual description of an error, the `message` carried by the thrown
JS `Error` (the callback flow interpolates it into the 400 body). -/
def AuthError.describe : AuthError → String
  | .cookiesAbsent => "Cookies were not present in the request"
  | .noTokens => "Neither idToken, nor refreshToken was present in request cookies"
  | .verifyFailed => "Token verification failed"
  | .csrfDisabled => "_validateCSRFCookies should not be called if CSRF protection is disabled."
  | .stateParseError => "Unable to parse the state query parameter"
  | .missingNonceCookie => "Your browser did not send the nonce cookie along, but it is required for security (prevent CSRF)."
  | .nonceMismatch => "Nonce mismatch. This can happen if you start multiple authentication attempts in parallel (e.g. in separate tabs)"
  | .missingPkceCookie => "Your browser did not send the pkce cookie along, but it is required for security (prevent CSRF)."
  | .signatureMismatch => "Nonce signature mismatch!"
  | .exchangeFailed => "Unable to fetch tokens from grant code"
  | .refreshFailed => "Unable to fetch tokens from refreshToken"
  | .revokeFailed => "Unable to revoke refreshToken"
  | .parseAuthPathNotSet => "parseAuthPath is not set"
  | .missingCode => "OAuth code parameter not found"

/-- One network call to the identity provider, recorded in the trace. -/
inductive Call where
  | exchangeCode (redirectUri : String) (code : Option String)
  | exchangeRefresh (redirectUri : String) (refreshToken : Option String)
  | revoke (refreshToken : Option String)
deriving DecidableEq

/-- Oracles for the external collaborators: the JWT verifier (returning
the `cognito:username` claim on success), the token endpoint (code and
refresh grants), the revoke endpoint, the clock (`Date.now` in ms), and
the random values drawn by CSRF token generation. -/
structure Env where
  verify : Option String → Option String
  exchangeCode : String → Option String → Option TokenResp
  exchangeRefresh : String → Option String → Option TokenResp
  revokeOk : Option String → Bool
  now : Nat
  freshNonce : String
  freshPkce : String

/-- CSRF protection configuration (`csrfProtection` constructor param). -/
structure CSRFConfig where
  nonceSigningSecret : String
deriving DecidableEq

/-- Logout configuration (`logoutConfiguration` constructor param). -/
structure LogoutConfig where
  logoutUri : String
  logoutRedirectUri : Option String
deriving DecidableEq

/-- The cookie types for which `cookieSettingsOverrides` can carry an
override (the keys `_getRedirectResponse` looks up). -/
inductive CookieType where
  | accessToken
  | idToken
  | refreshToken
deriving DecidableEq

/-- One per-cookie-type attribute override (`CookieSettingsOverrides`
entry): each field optional, `expirationDays` recomputing the expiry. -/
structure CookieOverride where
  httpOnly : Option Bool := none
  sameSite : Option SameSite := none
  path : Option String := none
  expirationDays : Option Nat := none
deriving DecidableEq

/-- The validated `Authenticator` configuration, as stored on the instance
by the constructor (`_parseAuthPath` already stripped of its leading
slash, empty when unset). -/
structure Config where
  userPoolAppId : String
  userPoolDomain : String
  cookieExpirationDays : Nat
  disableCookieDomain : Bool
  cookieDomain : Option String
  httpOnly : Bool
  sameSite : Option SameSite
  cookiePath : Option String
  cookieSettingsOverrides : CookieType → Option CookieOverride
  csrfProtection : Option CSRFConfig
  logoutConfiguration : Option LogoutConfig
  parseAuthPath : String

/-- The `_cookieBase` field: `CognitoIdentityServiceProvider.<appId>`. -/
def Config.cookieBase (cfg : Config) : String :=
  "CognitoIdentityServiceProvider." ++ cfg.userPoolAppId

/-- Modelled from the spec: the csrf util's `signNonce`, an HMAC-SHA256 of
the nonce under the signing secret.  The MAC itself is a crypto primitive
outside the sources; it is modelled as a deterministic keyed tag (the
claims need determinism, never collision resistance). -/
def signNonce (nonce secret : String) : String :=
  "hmacSha256(" ++ secret ++ ";" ++ nonce ++ ")"

/-- Output of CSRF token generation. -/
structure CSRFGenerated where
  nonce : String
  nonceHmac : String
  pkce : String
  state : StateParam
deriving DecidableEq

/-- Modelled from the spec: the csrf util's `generateCSRFTokens` draws a
random nonce and PKCE verifier (passed here explicitly), signs the nonce,
and encodes the nonce with the redirect uri into the `state` parameter. -/
def generateCSRFTokens (redirectUri secret nonce pkce : String) : CSRFGenerated :=
  { nonce := nonce
    nonceHmac := signNonce nonce secret
    pkce := pkce
    state := .enc nonce redirectUri }

/-- CSRF cookie name tail segments, modelled from the spec: the csrf
util's `NONCE_COOKIE_NAME_SUFFIX`, `NONCE_HMAC_COOKIE_NAME_SUFFIX` and
`PKCE_COOKIE_NAME_SUFFIX` constants. -/
def nonceCookieTail : String := "nonce"

/-- CSRF nonce HMAC cookie name tail segment, see `nonceCookieTail`. -/
def nonceHmacCookieTail : String := "nonceHmac"

/-- CSRF PKCE cookie name tail segment, see `nonceCookieTail`. -/
def pkceCookieTail : String := "pkce"

/-- Modelled from the spec: JS `encodeURIComponent`, percent-encoding every
character outside the unreserved set via its UTF-8 bytes. -/
def encodeURIComponent (s : String) : String :=
  String.join <| s.data.map fun c =>
    if c.isAlphanum || c = '-' || c = '_' || c = '.' || c = '!' ||
        c = '~' || c = '*' || c = '(' || c = ')' then
      String.singleton c
    else
      String.join <| (String.singleton c).toUTF8.toList.map fun b =>
        "%" ++ (Nat.toDigits 16 b.toNat).asString

/-- The effect monad of a flow: a computation that may throw an
`AuthError` (a JS exception) while appending identity-provider calls to a
trace.  State written before a throw is kept, matching the semantics of
side effects before an exception. -/
def M (α : Type) : Type := List Call → Except AuthError α × List Call

/-- Return a value, leaving the trace unchanged. -/
def M.pure (a : α) : M α := fun t => (.ok a, t)

/-- Sequence two computations, short-circuiting on a thrown error. -/
def M.bind (m : M α) (f : α → M β) : M β := fun t =>
  match m t with
  | (.ok a, t') => f a t'
  | (.error e, t') => (.error e, t')

instance : Monad M where
  pure := M.pure
  bind := M.bind

/-- Throw a JS exception. -/
def M.throw (e : AuthError) : M α := fun t => (.error e, t)

/-- JS `try`/`catch`: run the body; on a thrown error run the handler
(side effects of the body are kept). -/
def tryCatchM (m : M α) (h : AuthError → M α) : M α := fun t =>
  match m t with
  | (.ok a, t') => (.ok a, t')
  | (.error e, t') => h e t'

/-- Lift a pure fallible computation into the flow monad. -/
def liftE : Except AuthError α → M α
  | .ok a => M.pure a
  | .error e => M.throw e

/-- Record one identity-provider call in the trace. -/
def record (c : Call) : M Unit := fun t => (.ok (), t ++ [c])

/-- Run a flow on the empty trace. -/
def M.run (m : M α) : Except AuthError α × List Call := m []

/-- `_getTokensFromCookie`: extract id and refresh tokens from the parsed
cookie headers; throws when no cookie header is present or when neither
token is (truthily) found.  Later cookies overwrite earlier ones, as the
JS loop does. -/
def getTokensFromCookie (cfg : Config) (cookieHeaders : Option (List Cookie)) :
    Except AuthError TokenSet := do
  let some cookies := cookieHeaders | .error .cookiesAbsent
  let base := cfg.cookieBase ++ "."
  let tokens := cookies.foldl
    (fun acc c =>
      let acc := if strStarts c.name base && strEnds c.name ".idToken" then
        { acc with idToken := some c.value } else acc
      if strStarts c.name base && strEnds c.name ".refreshToken" then
        { acc with refreshToken := some c.value } else acc)
    ({} : TokenSet)
  if truthy tokens.idToken = false ∧ truthy tokens.refreshToken = false then
    .error .noTokens
  else
    .ok tokens

/-- `_getCSRFTokensFromCookie`: extract the nonce, nonce HMAC and PKCE
values from the parsed cookie headers; throws when no cookie header is
present. -/
def getCSRFTokensFromCookie (cfg : Config) (cookieHeaders : Option (List Cookie)) :
    Except AuthError CSRFCookieTokens := do
  let some cookies := cookieHeaders | .error .cookiesAbsent
  .ok <| cookies.foldl
    (fun acc c =>
      if strStarts c.name cfg.cookieBase then
        let acc := if strEnds c.name ("." ++ nonceCookieTail) then
          { acc with nonce := some c.value } else acc
        let acc := if strEnds c.name ("." ++ nonceHmacCookieTail) then
          { acc with nonceHmac := some c.value } else acc
        if strEnds c.name ("." ++ pkceCookieTail) then
          { acc with pkce := some c.value } else acc
      else acc)
    ({} : CSRFCookieTokens)

/-- `_validateCSRFCookies`: decode the `state` parameter, compare its
nonce against the nonce cookie, require a PKCE cookie, and check the
nonce HMAC cookie against a recomputed signature. -/
def validateCSRFCookies (cfg : Config) (request : Request) :
    Except AuthError Unit := do
  let some csrf := cfg.csrfProtection | .error .csrfDisabled
  let parsedNonce ← match request.params.state with
    | some (.enc nonce _) => Except.ok nonce
    | _ => .error .stateParseError
  let t ← getCSRFTokensFromCookie cfg request.cookies
  if parsedNonce = "" ∨ truthy t.nonce = false ∨ t.nonce ≠ some parsedNonce then
    if truthy t.nonce = false then .error .missingNonceCookie
    else .error .nonceMismatch
  else if truthy t.pkce = false then
    .error .missingPkceCookie
  else if some (signNonce parsedNonce csrf.nonceSigningSecret) ≠ t.nonceHmac then
    .error .signatureMismatch
  else
    .ok ()

/-- `_getOverridenCookieAttributes`: apply the configured override for the
given cookie type field by field, recomputing the expiry from
`expirationDays` and the current time. -/
def getOverridenCookieAttributes (cfg : Config) (now : Nat)
    (cookieAttributes : CookieAttributes) (cookieType : CookieType) :
    CookieAttributes :=
  match cfg.cookieSettingsOverrides cookieType with
  | none => cookieAttributes
  | some o =>
    let res := cookieAttributes
    let res := match o.httpOnly with
      | some b => { res with httpOnly := b }
      | none => res
    let res := match o.sameSite with
      | some s => { res with sameSite := some s }
      | none => res
    let res := match o.path with
      | some p => { res with path := some p }
      | none => res
    match o.expirationDays with
      | some d => { res with expires := some (now + d * 86400000) }
      | none => res

/-- `_getRedirectUriFromState`: with CSRF protection on, decode the state
parameter and return its redirect uri (throwing when it does not decode);
otherwise return the state string as is. -/
def getRedirectUriFromState (cfg : Config) (state : Option StateParam) :
    Except AuthError (Option String) :=
  if cfg.csrfProtection.isSome then
    match state with
    | some (.enc _ redirectUri) => .ok (some redirectUri)
    | _ => .error .stateParseError
  else
    .ok (state.map StateParam.render)

/-- The token scopes string written into the `tokenScopesString` cookie. -/
def tokenScopes : String := "phone email profile openid aws.cognito.signin.user.admin"

/-- The base cookie attribute set `_getRedirectResponse` derives from the
configuration and the current time before applying per-type overrides. -/
def sessionCookieAttrs (cfg : Config) (env : Env) (domain : String) : CookieAttributes :=
  { domain := getCookieDomain domain cfg.disableCookieDomain cfg.cookieDomain
    expires := some (env.now + cfg.cookieExpirationDays * 86400000)
    secure := true
    httpOnly := cfg.httpOnly
    sameSite := cfg.sameSite
    path := cfg.cookiePath }

/-- `_getRedirectResponse`: verify the id token, then build the 302
response that sets the session cookies (access, id, optional refresh,
scopes, last auth user) and, with CSRF protection on, clears the three
CSRF cookies. -/
def getRedirectResponse (cfg : Config) (env : Env) (tokens : TokenSet)
    (domain : String) (location : Option String) : Except AuthError Response := do
  let some username := env.verify tokens.idToken | .error .verifyFailed
  let usernameBase := cfg.cookieBase ++ "." ++ username
  let cookieAttributes := sessionCookieAttrs cfg env domain
  let cookies : List SetCookie :=
    [ ⟨usernameBase ++ ".accessToken", tokens.accessToken,
        getOverridenCookieAttributes cfg env.now cookieAttributes .accessToken⟩,
      ⟨usernameBase ++ ".idToken", tokens.idToken,
        getOverridenCookieAttributes cfg env.now cookieAttributes .idToken⟩ ]
    ++ (if truthy tokens.refreshToken then
        [⟨usernameBase ++ ".refreshToken", tokens.refreshToken,
          getOverridenCookieAttributes cfg env.now cookieAttributes .refreshToken⟩]
      else [])
    ++ [ ⟨usernameBase ++ ".tokenScopesString", some tokenScopes, cookieAttributes⟩,
         ⟨cfg.cookieBase ++ ".LastAuthUser", some username, cookieAttributes⟩ ]
  let cookies := cookies ++ (if cfg.csrfProtection.isSome then
      let csrfCookieAttributes := { cookieAttributes with
        domain := none, expires := some env.now }
      [ ⟨cfg.cookieBase ++ "." ++ pkceCookieTail, some "", csrfCookieAttributes⟩,
        ⟨cfg.cookieBase ++ "." ++ nonceCookieTail, some "", csrfCookieAttributes⟩,
        ⟨cfg.cookieBase ++ "." ++ nonceHmacCookieTail, some "", csrfCookieAttributes⟩ ]
    else [])
  .ok { status := "302"
        location := location
        cacheControl := some "no-cache, no-store, max-age=0, must-revalidate"
        pragma := some "no-cache"
        setCookies := cookies
        body := none }

/-- `_fetchTokensFromCode`: POST the authorization code grant to the
token endpoint (recorded in the trace) and package the response body. -/
def fetchTokensFromCode (env : Env) (redirectURI : String) (code : Option String) :
    M TokenSet :=
  record (.exchangeCode redirectURI code) >>= fun _ =>
  match env.exchangeCode redirectURI code with
  | some resp => M.pure { idToken := resp.id_token,
                          accessToken := resp.access_token,
                          refreshToken := resp.refresh_token }
  | none => M.throw .exchangeFailed

/-- `_fetchTokensFromRefreshToken`: POST the refresh token grant to the
token endpoint (recorded in the trace); the packaged result omits any
refresh token, matching the JS response mapping. -/
def fetchTokensFromRefreshToken (env : Env) (redirectURI : String)
    (refreshToken : Option String) : M TokenSet :=
  record (.exchangeRefresh redirectURI refreshToken) >>= fun _ =>
  match env.exchangeRefresh redirectURI refreshToken with
  | some resp => M.pure { idToken := resp.id_token,
                          accessToken := resp.access_token,
                          refreshToken := none }
  | none => M.throw .refreshFailed

/-- `_revokeTokens`: POST the refresh token to the revoke endpoint
(recorded in the trace), throwing when the call fails. -/
def revokeTokens (env : Env) (tokens : TokenSet) : M Unit :=
  record (.revoke tokens.refreshToken) >>= fun _ =>
  if env.revokeOk tokens.refreshToken then M.pure () else M.throw .revokeFailed

/-- The cookie attribute set `_clearCookies` uses: like the session base
but expiring at the current instant. -/
def clearCookieAttrs (cfg : Config) (env : Env) (domain : String) : CookieAttributes :=
  { domain := getCookieDomain domain cfg.disableCookieDomain cfg.cookieDomain
    expires := some env.now
    secure := true
    httpOnly := cfg.httpOnly
    sameSite := cfg.sameSite
    path := cfg.cookiePath }

/-- `_clearCookies`: build the 302 clearing response.  When the id token
still verifies, clear exactly the per-user session cookie kinds; else
clear every request cookie whose name starts with the cookie base.  The
redirect target is the configured logout redirect uri, the `redirect_uri`
parameter, or the site root, by JS truthy choice. -/
def clearCookies (cfg : Config) (env : Env) (request : Request)
    (tokens : TokenSet := {}) : Response :=
  let cfDomain := request.host
  let redirectURI := jsOrStr (cfg.logoutConfiguration.bind fun l => l.logoutRedirectUri)
    (jsOrStr request.params.redirect_uri ("https://" ++ cfDomain))
  let cookieAttributes := clearCookieAttrs cfg env cfDomain
  let responseCookies : List SetCookie :=
    match env.verify tokens.idToken with
    | some username =>
      let usernameBase := cfg.cookieBase ++ "." ++ username
      [ ⟨usernameBase ++ ".accessToken", some "", cookieAttributes⟩,
        ⟨usernameBase ++ ".idToken", some "", cookieAttributes⟩ ]
      ++ (if truthy tokens.refreshToken then
          [⟨usernameBase ++ ".refreshToken", some "", cookieAttributes⟩] else [])
      ++ [ ⟨usernameBase ++ ".tokenScopesString", some "", cookieAttributes⟩,
           ⟨cfg.cookieBase ++ ".LastAuthUser", some "", cookieAttributes⟩ ]
    | none =>
      ((request.cookies.getD []).filter fun c =>
        strStarts c.name cfg.cookieBase).map fun c =>
        ⟨c.name, some "", cookieAttributes⟩
  { status := "302"
    location := some redirectURI
    cacheControl := some "no-cache, no-store, max-age=0, must-revalidate"
    pragma := some "no-cache"
    setCookies := responseCookies
    body := none }

/-- `_getRedirectToCognitoUserPoolResponse`: build the 302 to the
identity provider authorize endpoint; with CSRF protection on, generate
the CSRF tokens, carry them in `state`, and set the three CSRF cookies. -/
def getRedirectToCognitoUserPoolResponse (cfg : Config) (env : Env)
    (request : Request) (redirectURI : String) : Response :=
  let cfDomain := request.host
  let redirectPath := request.uri ++
    (if request.querystring ≠ "" then encodeURIComponent ("?" ++ request.querystring)
     else "")
  let oauthRedirectUri := if cfg.parseAuthPath ≠ "" then
      "https://" ++ cfDomain ++ "/" ++ cfg.parseAuthPath
    else redirectURI
  let csrfTokens : Option CSRFGenerated := cfg.csrfProtection.map fun csrf =>
    generateCSRFTokens redirectURI csrf.nonceSigningSecret env.freshNonce env.freshPkce
  let state : String := match csrfTokens with
    | some toks => toks.state.render
    | none => redirectPath
  let userPoolUrl := "https://" ++ cfg.userPoolDomain ++ "/authorize?redirect_uri="
    ++ oauthRedirectUri ++ "&response_type=code&client_id=" ++ cfg.userPoolAppId
    ++ "&state=" ++ state
  let cookies : List SetCookie := match csrfTokens with
    | some toks =>
      let cookieAttributes : CookieAttributes :=
        { domain := none
          expires := some (env.now + 10 * 60 * 1000)
          secure := true
          httpOnly := cfg.httpOnly
          sameSite := cfg.sameSite
          path := cfg.cookiePath }
      [ ⟨cfg.cookieBase ++ "." ++ pkceCookieTail,
          some (jsOrStr (some toks.pkce) ""), cookieAttributes⟩,
        ⟨cfg.cookieBase ++ "." ++ nonceCookieTail,
          some (jsOrStr (some toks.nonce) ""), cookieAttributes⟩,
        ⟨cfg.cookieBase ++ "." ++ nonceHmacCookieTail,
          some (jsOrStr (some toks.nonceHmac) ""), cookieAttributes⟩ ]
    | none => []
  { status := "302"
    location := some userPoolUrl
    cacheControl := some "no-cache, no-store, max-age=0, must-revalidate"
    pragma := some "no-cache"
    setCookies := cookies
    body := none }

/-- The default gate's logout routing test: a logout configuration is
present and the request uri starts with the configured logout uri. -/
def logoutMatch (cfg : Config) (request : Request) : Bool :=
  match cfg.logoutConfiguration with
  | some lc => strStarts request.uri lc.logoutUri
  | none => false

/-- The catch block of the default gate: clear cookies on a logout match,
exchange a `code` parameter, or redirect to the authorize endpoint. -/
def handleCatch (cfg : Config) (env : Env) (request : Request)
    (redirectURI : String) : AuthError → M HandleResult := fun _err =>
  if logoutMatch cfg request then
    M.pure (.response (clearCookies cfg env request {}))
  else if truthy request.params.code then
    fetchTokensFromCode env redirectURI request.params.code >>= fun t =>
    liftE (getRedirectUriFromState cfg request.params.state) >>= fun loc =>
    liftE (getRedirectResponse cfg env t request.host loc) >>= fun r =>
    M.pure (.response r)
  else
    M.pure (.response (getRedirectToCognitoUserPoolResponse cfg env request redirectURI))

/-- The try block of the default gate: extract tokens; on a logout match
revoke and clear; else verify the id token and forward, falling back to a
refresh exchange when a refresh token is present. -/
def handleTry (cfg : Config) (env : Env) (request : Request) : M HandleResult :=
  liftE (getTokensFromCookie cfg request.cookies) >>= fun tokens =>
  if logoutMatch cfg request then
    revokeTokens env tokens >>= fun _ =>
    M.pure (.response (clearCookies cfg env request tokens))
  else
    tryCatchM
      (match env.verify tokens.idToken with
       | some _user => M.pure (.forward request)
       | none => M.throw .verifyFailed)
      (fun err =>
        if truthy tokens.refreshToken then
          fetchTokensFromRefreshToken env ("https://" ++ request.host)
            tokens.refreshToken >>= fun t =>
          liftE (getRedirectResponse cfg env t request.host (some request.uri)) >>= fun r =>
          M.pure (.response r)
        else M.throw err)

/-- The default gate (`handle`): run the try block, any error reaching
the catch block. -/
def handle (cfg : Config) (env : Env) (request : Request) : M HandleResult :=
  tryCatchM (handleTry cfg env request)
    (handleCatch cfg env request ("https://" ++ request.host))

/-- The try block of `handleSignIn`: with a verified session, answer a
bare 302 to the requested destination. -/
def signInTry (cfg : Config) (env : Env) (request : Request) : M Response :=
  liftE (getTokensFromCookie cfg request.cookies) >>= fun tokens =>
  match env.verify tokens.idToken with
  | some _user => M.pure
      { status := "302"
        location := some (jsOrStr request.params.redirect_uri
          ("https://" ++ request.host))
        cacheControl := none
        pragma := none
        setCookies := []
        body := none }
  | none => M.throw .verifyFailed

/-- `handleSignIn`: run the try block; any failure redirects to the
authorize endpoint. -/
def handleSignIn (cfg : Config) (env : Env) (request : Request) : M Response :=
  tryCatchM (signInTry cfg env request)
    (fun _err =>
      M.pure (getRedirectToCognitoUserPoolResponse cfg env request
        (jsOrStr request.params.redirect_uri ("https://" ++ request.host))))

/-- The try block of the callback flow `handleParseAuth`: require a
configured parse-auth path and a `code` parameter, validate the CSRF
cookies when protection is on, exchange the code, then answer the
set-cookie redirect to the state-encoded destination. -/
def parseAuthTry (cfg : Config) (env : Env) (request : Request) : M Response :=
  (if cfg.parseAuthPath = "" then M.throw .parseAuthPathNotSet else M.pure ()) >>= fun _ =>
  if truthy request.params.code then
    (if cfg.csrfProtection.isSome then liftE (validateCSRFCookies cfg request)
     else M.pure ()) >>= fun _ =>
    fetchTokensFromCode env ("https://" ++ request.host ++ "/" ++ cfg.parseAuthPath)
      request.params.code >>= fun tokens =>
    liftE (getRedirectUriFromState cfg request.params.state) >>= fun location =>
    liftE (getRedirectResponse cfg env tokens request.host location)
  else
    M.throw .missingCode

/-- `handleParseAuth`: run the try block; any failure is answered as a
400 whose body describes the error. -/
def handleParseAuth (cfg : Config) (env : Env) (request : Request) : M Response :=
  tryCatchM (parseAuthTry cfg env request)
    (fun err =>
      M.pure { status := "400"
               location := none
               cacheControl := none
               pragma := none
               setCookies := []
               body := some err.describe })

/-- The try block of `handleRefreshToken`: re-verify the current id
token, perform one refresh exchange, and answer the set-cookie
redirect. -/
def refreshTry (cfg : Config) (env : Env) (request : Request) : M Response :=
  liftE (getTokensFromCookie cfg request.cookies) >>= fun tokens =>
  match env.verify tokens.idToken with
  | some _user =>
    fetchTokensFromRefreshToken env
      (jsOrStr request.params.redirect_uri ("https://" ++ request.host))
      tokens.refreshToken >>= fun tokens2 =>
    liftE (getRedirectResponse cfg env tokens2 request.host
      (some (jsOrStr request.params.redirect_uri ("https://" ++ request.host))))
  | none => M.throw .verifyFailed

/-- `handleRefreshToken`: run the try block; any failure falls back to
the authorize redirect. -/
def handleRefreshToken (cfg : Config) (env : Env) (request : Request) : M Response :=
  tryCatchM (refreshTry cfg env request)
    (fun _err =>
      M.pure (getRedirectToCognitoUserPoolResponse cfg env request
        (jsOrStr request.params.redirect_uri ("https://" ++ request.host))))

/-- The try block of `handleSignOut`: extract tokens, attempt the revoke
call, then clear cookies. -/
def signOutTry (cfg : Config) (env : Env) (request : Request) : M Response :=
  liftE (getTokensFromCookie cfg request.cookies) >>= fun tokens =>
  revokeTokens env tokens >>= fun _ =>
  M.pure (clearCookies cfg env request tokens)

/-- `handleSignOut`: run the try block; when anything fails, still clear
cookies (without a token set). -/
def handleSignOut (cfg : Config) (env : Env) (request : Request) : M Response :=
  tryCatchM (signOutTry cfg env request)
    (fun _err =>
      M.pure (clearCookies cfg env request {}))

/-! ### Run equations for the flow monad -/

theorem pureM_run (a : α) (t : List Call) : (M.pure a) t = (.ok a, t) := rfl

theorem throwM_run (e : AuthError) (t : List Call) :
    (M.throw e : M α) t = (.error e, t) := rfl

theorem record_run (c : Call) (t : List Call) : record c t = (.ok (), t ++ [c]) := rfl

theorem bindM_run_ok {m : M α} {f : α → M β} {t t' : List Call} {a : α}
    (h : m t = (.ok a, t')) : (m >>= f) t = f a t' := by
  show M.bind m f t = f a t'
  simp only [M.bind, h]

theorem bindM_run_error {m : M α} {f : α → M β} {t t' : List Call} {e : AuthError}
    (h : m t = (.error e, t')) : (m >>= f) t = (.error e, t') := by
  show M.bind m f t = (.error e, t')
  simp only [M.bind, h]

theorem tryCatchM_run_ok {m : M α} {g : AuthError → M α} {t t' : List Call} {a : α}
    (h : m t = (.ok a, t')) : tryCatchM m g t = (.ok a, t') := by
  simp only [tryCatchM, h]

theorem tryCatchM_run_error {m : M α} {g : AuthError → M α} {t t' : List Call}
    {e : AuthError} (h : m t = (.error e, t')) : tryCatchM m g t = g e t' := by
  simp only [tryCatchM, h]

theorem liftE_run_ok {x : Except AuthError α} {a : α} (h : x = .ok a)
    (t : List Call) : liftE x t = (.ok a, t) := by
  subst h; rfl

theorem liftE_run_error {x : Except AuthError α} {e : AuthError} (h : x = .error e)
    (t : List Call) : liftE x t = (.error e, t) := by
  subst h; rfl

/-! ### String segment lemmas -/

theorem strStarts_append (s t : String) : strStarts (s ++ t) s = true := by
  simp only [strStarts, String.data_append, decide_eq_true_eq]
  exact List.prefix_append _ _

theorem strStarts_append2 (a b c : String) : strStarts (a ++ b ++ c) a = true := by
  simp only [strStarts, String.data_append, decide_eq_true_eq, List.append_assoc]
  exact List.prefix_append _ _

theorem strEnds_append (s t : String) : strEnds (s ++ t) t = true := by
  simp only [strEnds, String.data_append, decide_eq_true_eq]
  exact List.suffix_append _ _

theorem strEnds_append2 (a b c : String) : strEnds (a ++ b ++ c) (b ++ c) = true := by
  simp only [strEnds, String.data_append, decide_eq_true_eq, List.append_assoc]
  exact List.suffix_append _ _

theorem strEnds_append_ne {a b : String} (s : String)
    (h1 : ¬ a.data <:+ b.data) (h2 : ¬ b.data <:+ a.data) :
    strEnds (s ++ b) a = false := by
  simp only [strEnds, String.data_append, decide_eq_false_iff_not]
  intro hsuf
  rcases List.suffix_or_suffix_of_suffix hsuf (List.suffix_append s.data b.data) with h | h
  exacts [h1 h, h2 h]

theorem strEnds_append2_ne {a : String} (s b c : String)
    (h1 : ¬ a.data <:+ (b ++ c).data) (h2 : ¬ (b ++ c).data <:+ a.data) :
    strEnds (s ++ b ++ c) a = false := by
  have : s ++ b ++ c = s ++ (b ++ c) := by
    simp [String.ext_iff, String.data_append]
  rw [this]
  exact strEnds_append_ne s h1 h2

/-! ### Properties of the shared response builders -/

theorem clearCookies_props (cfg : Config) (env : Env) (request : Request)
    (tokens : TokenSet) :
    (clearCookies cfg env request tokens).status = "302" ∧
    (clearCookies cfg env request tokens).cacheControl =
      some "no-cache, no-store, max-age=0, must-revalidate" ∧
    (clearCookies cfg env request tokens).pragma = some "no-cache" ∧
    (clearCookies cfg env request tokens).location =
      some (jsOrStr (cfg.logoutConfiguration.bind fun l => l.logoutRedirectUri)
        (jsOrStr request.params.redirect_uri ("https://" ++ request.host))) ∧
    ∀ c ∈ (clearCookies cfg env request tokens).setCookies,
      c.value = some "" ∧ c.attrs.expires = some env.now := by
  unfold clearCookies
  refine ⟨rfl, rfl, rfl, rfl, ?_⟩
  intro c hc
  simp only at hc
  cases hv : env.verify tokens.idToken with
  | some username =>
    by_cases hr : truthy tokens.refreshToken
    · simp only [hv, hr, if_true, List.cons_append, List.nil_append, List.append_nil,
        List.mem_cons, List.not_mem_nil, or_false] at hc
      rcases hc with rfl | rfl | rfl | rfl | rfl | rfl <;> exact ⟨rfl, rfl⟩
    · simp only [hv, hr, if_false, Bool.false_eq_true, List.cons_append,
        List.nil_append, List.append_nil, List.mem_cons, List.not_mem_nil,
        or_false] at hc
      rcases hc with rfl | rfl | rfl | rfl | rfl <;> exact ⟨rfl, rfl⟩
  | none =>
    simp only [hv, List.mem_map, List.mem_filter] at hc
    obtain ⟨c0, _, rfl⟩ := hc
    exact ⟨rfl, rfl⟩

theorem revokeTokens_run (env : Env) (tokens : TokenSet) (t : List Call) :
    revokeTokens env tokens t =
      ((if env.revokeOk tokens.refreshToken then .ok () else .error .revokeFailed),
        t ++ [.revoke tokens.refreshToken]) := by
  unfold revokeTokens
  rw [bindM_run_ok (record_run _ t)]
  by_cases h : env.revokeOk tokens.refreshToken <;> simp [h, M.pure, M.throw]

theorem fetchTokensFromCode_run (env : Env) (uri : String) (code : Option String)
    (t : List Call) :
    fetchTokensFromCode env uri code t =
      ((match env.exchangeCode uri code with
        | some resp => .ok { idToken := resp.id_token, accessToken := resp.access_token,
                             refreshToken := resp.refresh_token }
        | none => .error .exchangeFailed),
        t ++ [.exchangeCode uri code]) := by
  unfold fetchTokensFromCode
  rw [bindM_run_ok (record_run _ t)]
  cases h : env.exchangeCode uri code <;> simp [h, M.pure, M.throw]

theorem fetchTokensFromRefreshToken_run (env : Env) (uri : String)
    (refreshToken : Option String) (t : List Call) :
    fetchTokensFromRefreshToken env uri refreshToken t =
      ((match env.exchangeRefresh uri refreshToken with
        | some resp => .ok { idToken := resp.id_token, accessToken := resp.access_token,
                             refreshToken := none }
        | none => .error .refreshFailed),
        t ++ [.exchangeRefresh uri refreshToken]) := by
  unfold fetchTokensFromRefreshToken
  rw [bindM_run_ok (record_run _ t)]
  cases h : env.exchangeRefresh uri refreshToken <;> simp [h, M.pure, M.throw]

theorem getRedirectResponse_ok_props {cfg : Config} {env : Env} {tokens : TokenSet}
    {domain : String} {loc : Option String} {r : Response}
    (h : getRedirectResponse cfg env tokens domain loc = .ok r) :
    r.status = "302" ∧
    r.cacheControl = some "no-cache, no-store, max-age=0, must-revalidate" ∧
    r.pragma = some "no-cache" ∧ r.location = loc := by
  unfold getRedirectResponse at h
  cases hv : env.verify tokens.idToken with
  | none => rw [hv] at h; exact absurd h (by simp)
  | some u =>
    rw [hv] at h
    simp only [Except.ok.injEq] at h
    subst h
    exact ⟨rfl, rfl, rfl, rfl⟩

theorem getRedirectToCognitoUserPoolResponse_props (cfg : Config) (env : Env)
    (request : Request) (redirectURI : String) :
    (getRedirectToCognitoUserPoolResponse cfg env request redirectURI).status = "302" ∧
    (getRedirectToCognitoUserPoolResponse cfg env request redirectURI).cacheControl =
      some "no-cache, no-store, max-age=0, must-revalidate" ∧
    (getRedirectToCognitoUserPoolResponse cfg env request redirectURI).pragma =
      some "no-cache" ∧
    (getRedirectToCognitoUserPoolResponse cfg env request redirectURI).body = none := by
  unfold getRedirectToCognitoUserPoolResponse
  exact ⟨rfl, rfl, rfl, rfl⟩

theorem handleCatch_shape (cfg : Config) (env : Env) (request : Request)
    (redirectURI : String) (e : AuthError) (t : List Call) :
    (∃ r tr, handleCatch cfg env request redirectURI e t = (.ok (.response r), tr) ∧
      (r = clearCookies cfg env request {} ∨
       (∃ ts loc, getRedirectResponse cfg env ts request.host loc = .ok r) ∨
       r = getRedirectToCognitoUserPoolResponse cfg env request redirectURI)) ∨
    (∃ e' tr, handleCatch cfg env request redirectURI e t = (.error e', tr) ∧
      logoutMatch cfg request = false ∧ truthy request.params.code = true) := by
  unfold handleCatch
  by_cases hlog : logoutMatch cfg request
  · left
    exact ⟨_, t, by rw [if_pos hlog]; rfl, Or.inl rfl⟩
  · rw [if_neg hlog]
    by_cases hcode : truthy request.params.code
    · rw [if_pos hcode]
      cases hex : env.exchangeCode redirectURI request.params.code with
      | none =>
        have hf : fetchTokensFromCode env redirectURI request.params.code t =
            (.error .exchangeFailed, t ++ [.exchangeCode redirectURI request.params.code]) := by
          rw [fetchTokensFromCode_run, hex]
        right
        exact ⟨_, _, bindM_run_error hf, eq_false_of_ne_true hlog, hcode⟩
      | some resp =>
        have hf : fetchTokensFromCode env redirectURI request.params.code t =
            (.ok (⟨resp.id_token, resp.access_token, resp.refresh_token⟩ : TokenSet),
              t ++ [.exchangeCode redirectURI request.params.code]) := by
          rw [fetchTokensFromCode_run, hex]
        rw [bindM_run_ok hf]
        cases hst : getRedirectUriFromState cfg request.params.state with
        | error e2 =>
          right
          exact ⟨_, _, bindM_run_error (liftE_run_error rfl _),
            eq_false_of_ne_true hlog, hcode⟩
        | ok loc =>
          rw [bindM_run_ok (liftE_run_ok rfl _)]
          cases hr : getRedirectResponse cfg env
              (⟨resp.id_token, resp.access_token, resp.refresh_token⟩ : TokenSet)
              request.host loc with
          | error e3 =>
            right
            exact ⟨_, _, bindM_run_error (liftE_run_error rfl _),
              eq_false_of_ne_true hlog, hcode⟩
          | ok r =>
            left
            rw [bindM_run_ok (liftE_run_ok rfl _)]
            exact ⟨r, t ++ [.exchangeCode redirectURI request.params.code],
              pureM_run _ _, Or.inr (Or.inl ⟨_, loc, hr⟩)⟩
    · rw [if_neg hcode]
      left
      exact ⟨_, t, rfl, Or.inr (Or.inr rfl)⟩

theorem handleTry_run_noTokens {cfg : Config} {env : Env} {request : Request}
    {e : AuthError} (htok : getTokensFromCookie cfg request.cookies = .error e)
    (t : List Call) : handleTry cfg env request t = (.error e, t) :=
  bindM_run_error (liftE_run_error htok t)

theorem handleTry_run_logout {cfg : Config} {env : Env} {request : Request}
    {tokens : TokenSet} (htok : getTokensFromCookie cfg request.cookies = .ok tokens)
    (hlog : logoutMatch cfg request = true) (t : List Call) :
    handleTry cfg env request t =
      ((if env.revokeOk tokens.refreshToken then
          .ok (.response (clearCookies cfg env request tokens))
        else .error .revokeFailed),
        t ++ [.revoke tokens.refreshToken]) := by
  unfold handleTry
  rw [bindM_run_ok (liftE_run_ok htok t), if_pos hlog]
  by_cases hrev : env.revokeOk tokens.refreshToken
  · rw [bindM_run_ok (show revokeTokens env tokens t = (.ok (), t ++ [.revoke tokens.refreshToken]) by rw [revokeTokens_run, if_pos hrev]), if_pos hrev]
    rfl
  · rw [bindM_run_error (show revokeTokens env tokens t = (.error .revokeFailed, t ++ [.revoke tokens.refreshToken]) by rw [revokeTokens_run, if_neg hrev]), if_neg hrev]

theorem handleTry_run_forward {cfg : Config} {env : Env} {request : Request}
    {tokens : TokenSet} {u : String}
    (htok : getTokensFromCookie cfg request.cookies = .ok tokens)
    (hlog : logoutMatch cfg request = false)
    (hver : env.verify tokens.idToken = some u) (t : List Call) :
    handleTry cfg env request t = (.ok (.forward request), t) := by
  unfold handleTry
  rw [bindM_run_ok (liftE_run_ok htok t), if_neg (by simp [hlog]), hver]
  exact tryCatchM_run_ok (pureM_run _ t)

theorem handleTry_run_noRefresh {cfg : Config} {env : Env} {request : Request}
    {tokens : TokenSet}
    (htok : getTokensFromCookie cfg request.cookies = .ok tokens)
    (hlog : logoutMatch cfg request = false)
    (hver : env.verify tokens.idToken = none)
    (hrt : truthy tokens.refreshToken = false) (t : List Call) :
    handleTry cfg env request t = (.error .verifyFailed, t) := by
  unfold handleTry
  rw [bindM_run_ok (liftE_run_ok htok t), if_neg (by simp [hlog]), hver]
  rw [tryCatchM_run_error (throwM_run _ t), if_neg (by simp [hrt])]
  rfl

theorem handleTry_run_refresh_fail {cfg : Config} {env : Env} {request : Request}
    {tokens : TokenSet}
    (htok : getTokensFromCookie cfg request.cookies = .ok tokens)
    (hlog : logoutMatch cfg request = false)
    (hver : env.verify tokens.idToken = none)
    (hrt : truthy tokens.refreshToken = true)
    (hex : env.exchangeRefresh ("https://" ++ request.host) tokens.refreshToken = none)
    (t : List Call) :
    handleTry cfg env request t = (.error .refreshFailed,
      t ++ [.exchangeRefresh ("https://" ++ request.host) tokens.refreshToken]) := by
  unfold handleTry
  rw [bindM_run_ok (liftE_run_ok htok t), if_neg (by simp [hlog]), hver]
  rw [tryCatchM_run_error (throwM_run _ t), if_pos hrt]
  rw [bindM_run_error (show fetchTokensFromRefreshToken env ("https://" ++ request.host) tokens.refreshToken t = (.error .refreshFailed, t ++ [.exchangeRefresh ("https://" ++ request.host) tokens.refreshToken]) by rw [fetchTokensFromRefreshToken_run, hex])]

theorem handleTry_run_refresh_ok {cfg : Config} {env : Env} {request : Request}
    {tokens : TokenSet} {resp : TokenResp} {r : Response}
    (htok : getTokensFromCookie cfg request.cookies = .ok tokens)
    (hlog : logoutMatch cfg request = false)
    (hver : env.verify tokens.idToken = none)
    (hrt : truthy tokens.refreshToken = true)
    (hex : env.exchangeRefresh ("https://" ++ request.host) tokens.refreshToken = some resp)
    (hred : getRedirectResponse cfg env
      (⟨resp.id_token, resp.access_token, none⟩ : TokenSet)
      request.host (some request.uri) = .ok r)
    (t : List Call) :
    handleTry cfg env request t = (.ok (.response r),
      t ++ [.exchangeRefresh ("https://" ++ request.host) tokens.refreshToken]) := by
  unfold handleTry
  rw [bindM_run_ok (liftE_run_ok htok t), if_neg (by simp [hlog]), hver]
  rw [tryCatchM_run_error (throwM_run _ t), if_pos hrt]
  rw [bindM_run_ok (show fetchTokensFromRefreshToken env ("https://" ++ request.host) tokens.refreshToken t = (.ok (⟨resp.id_token, resp.access_token, none⟩ : TokenSet), t ++ [.exchangeRefresh ("https://" ++ request.host) tokens.refreshToken]) by rw [fetchTokensFromRefreshToken_run, hex])]
  rw [bindM_run_ok (liftE_run_ok hred _)]
  rfl

theorem handleTry_run_refresh_badToken {cfg : Config} {env : Env} {request : Request}
    {tokens : TokenSet} {resp : TokenResp} {e : AuthError}
    (htok : getTokensFromCookie cfg request.cookies = .ok tokens)
    (hlog : logoutMatch cfg request = false)
    (hver : env.verify tokens.idToken = none)
    (hrt : truthy tokens.refreshToken = true)
    (hex : env.exchangeRefresh ("https://" ++ request.host) tokens.refreshToken = some resp)
    (hred : getRedirectResponse cfg env
      (⟨resp.id_token, resp.access_token, none⟩ : TokenSet)
      request.host (some request.uri) = .error e)
    (t : List Call) :
    handleTry cfg env request t = (.error e,
      t ++ [.exchangeRefresh ("https://" ++ request.host) tokens.refreshToken]) := by
  unfold handleTry
  rw [bindM_run_ok (liftE_run_ok htok t), if_neg (by simp [hlog]), hver]
  rw [tryCatchM_run_error (throwM_run _ t), if_pos hrt]
  rw [bindM_run_ok (show fetchTokensFromRefreshToken env ("https://" ++ request.host) tokens.refreshToken t = (.ok (⟨resp.id_token, resp.access_token, none⟩ : TokenSet), t ++ [.exchangeRefresh ("https://" ++ request.host) tokens.refreshToken]) by rw [fetchTokensFromRefreshToken_run, hex])]
  rw [bindM_run_error (liftE_run_error hred _)]

theorem handleCatch_run_cognito {cfg : Config} {request : Request} (env : Env)
    (uri : String) (e : AuthError) (t : List Call)
    (hlog : logoutMatch cfg request = false)
    (hcode : truthy request.params.code = false) :
    handleCatch cfg env request uri e t =
      (.ok (.response (getRedirectToCognitoUserPoolResponse cfg env request uri)), t) := by
  unfold handleCatch
  rw [if_neg (by simp [hlog]), if_neg (by simp [hcode])]
  rfl

theorem signOutTry_run_noTokens {cfg : Config} {env : Env} {request : Request}
    {e : AuthError} (htok : getTokensFromCookie cfg request.cookies = .error e)
    (t : List Call) : signOutTry cfg env request t = (.error e, t) :=
  bindM_run_error (liftE_run_error htok t)

theorem signOutTry_run_tokens {cfg : Config} {env : Env} {request : Request}
    {tokens : TokenSet} (htok : getTokensFromCookie cfg request.cookies = .ok tokens)
    (t : List Call) :
    signOutTry cfg env request t =
      ((if env.revokeOk tokens.refreshToken then
          .ok (clearCookies cfg env request tokens)
        else .error .revokeFailed),
        t ++ [.revoke tokens.refreshToken]) := by
  unfold signOutTry
  rw [bindM_run_ok (liftE_run_ok htok t)]
  by_cases hrev : env.revokeOk tokens.refreshToken
  · rw [bindM_run_ok (show revokeTokens env tokens t = (.ok (), t ++ [.revoke tokens.refreshToken]) by rw [revokeTokens_run, if_pos hrev]), if_pos hrev]
    rfl
  · rw [bindM_run_error (show revokeTokens env tokens t = (.error .revokeFailed, t ++ [.revoke tokens.refreshToken]) by rw [revokeTokens_run, if_neg hrev]), if_neg hrev]

theorem signInTry_run_noTokens {cfg : Config} {env : Env} {request : Request}
    {e : AuthError} (htok : getTokensFromCookie cfg request.cookies = .error e)
    (t : List Call) : signInTry cfg env request t = (.error e, t) :=
  bindM_run_error (liftE_run_error htok t)

theorem signInTry_run_valid {cfg : Config} {env : Env} {request : Request}
    {tokens : TokenSet} {u : String}
    (htok : getTokensFromCookie cfg request.cookies = .ok tokens)
    (hver : env.verify tokens.idToken = some u) (t : List Call) :
    signInTry cfg env request t =
      (.ok { status := "302"
             location := some (jsOrStr request.params.redirect_uri
               ("https://" ++ request.host))
             cacheControl := none
             pragma := none
             setCookies := []
             body := none }, t) := by
  unfold signInTry
  rw [bindM_run_ok (liftE_run_ok htok t), hver]
  rfl

theorem signInTry_run_invalid {cfg : Config} {env : Env} {request : Request}
    {tokens : TokenSet}
    (htok : getTokensFromCookie cfg request.cookies = .ok tokens)
    (hver : env.verify tokens.idToken = none) (t : List Call) :
    signInTry cfg env request t = (.error .verifyFailed, t) := by
  unfold signInTry
  rw [bindM_run_ok (liftE_run_ok htok t), hver]
  rfl

theorem refreshTry_run_noTokens {cfg : Config} {env : Env} {request : Request}
    {e : AuthError} (htok : getTokensFromCookie cfg request.cookies = .error e)
    (t : List Call) : refreshTry cfg env request t = (.error e, t) :=
  bindM_run_error (liftE_run_error htok t)

theorem refreshTry_run_invalid {cfg : Config} {env : Env} {request : Request}
    {tokens : TokenSet}
    (htok : getTokensFromCookie cfg request.cookies = .ok tokens)
    (hver : env.verify tokens.idToken = none) (t : List Call) :
    refreshTry cfg env request t = (.error .verifyFailed, t) := by
  unfold refreshTry
  rw [bindM_run_ok (liftE_run_ok htok t), hver]
  rfl

theorem refreshTry_run_valid {cfg : Config} {env : Env} {request : Request}
    {tokens : TokenSet} {u : String}
    (htok : getTokensFromCookie cfg request.cookies = .ok tokens)
    (hver : env.verify tokens.idToken = some u) (t : List Call) :
    refreshTry cfg env request t =
      ((match env.exchangeRefresh
          (jsOrStr request.params.redirect_uri ("https://" ++ request.host))
          tokens.refreshToken with
        | none => .error .refreshFailed
        | some resp =>
          getRedirectResponse cfg env
            (⟨resp.id_token, resp.access_token, none⟩ : TokenSet) request.host
            (some (jsOrStr request.params.redirect_uri ("https://" ++ request.host)))),
        t ++ [.exchangeRefresh
          (jsOrStr request.params.redirect_uri ("https://" ++ request.host))
          tokens.refreshToken]) := by
  unfold refreshTry
  rw [bindM_run_ok (liftE_run_ok htok t), hver]
  dsimp only
  cases hex : env.exchangeRefresh
      (jsOrStr request.params.redirect_uri ("https://" ++ request.host))
      tokens.refreshToken with
  | none =>
    rw [bindM_run_error (show fetchTokensFromRefreshToken env (jsOrStr request.params.redirect_uri ("https://" ++ request.host)) tokens.refreshToken t = (.error .refreshFailed, t ++ [.exchangeRefresh (jsOrStr request.params.redirect_uri ("https://" ++ request.host)) tokens.refreshToken]) by rw [fetchTokensFromRefreshToken_run, hex])]
  | some resp =>
    rw [bindM_run_ok (show fetchTokensFromRefreshToken env (jsOrStr request.params.redirect_uri ("https://" ++ request.host)) tokens.refreshToken t = (.ok (⟨resp.id_token, resp.access_token, none⟩ : TokenSet), t ++ [.exchangeRefresh (jsOrStr request.params.redirect_uri ("https://" ++ request.host)) tokens.refreshToken]) by rw [fetchTokensFromRefreshToken_run, hex])]
    cases hred : getRedirectResponse cfg env
        (⟨resp.id_token, resp.access_token, none⟩ : TokenSet) request.host
        (some (jsOrStr request.params.redirect_uri ("https://" ++ request.host))) with
    | ok r =>
      rw [liftE_run_ok rfl _]
      simp only [hred]
    | error e =>
      rw [liftE_run_error rfl _]
      simp only [hred]

theorem csrfGate_run_off {cfg : Config} {request : Request}
    (h : cfg.csrfProtection.isSome = false) (t : List Call) :
    (if cfg.csrfProtection.isSome then liftE (validateCSRFCookies cfg request)
     else M.pure ()) t = (.ok (), t) := by
  rw [if_neg (by simp [h])]
  rfl

theorem csrfGate_run_valid {cfg : Config} {request : Request}
    (h : validateCSRFCookies cfg request = .ok ()) (t : List Call) :
    (if cfg.csrfProtection.isSome then liftE (validateCSRFCookies cfg request)
     else M.pure ()) t = (.ok (), t) := by
  by_cases hc : cfg.csrfProtection.isSome
  · rw [if_pos hc]
    exact liftE_run_ok h t
  · rw [if_neg hc]
    rfl

theorem parseAuthTry_run_noPath {cfg : Config} {env : Env} {request : Request}
    (hpath : cfg.parseAuthPath = "") (t : List Call) :
    parseAuthTry cfg env request t = (.error .parseAuthPathNotSet, t) := by
  unfold parseAuthTry
  rw [bindM_run_error (show (if cfg.parseAuthPath = "" then M.throw .parseAuthPathNotSet else M.pure ()) t = ((.error .parseAuthPathNotSet : Except AuthError Unit), t) by rw [if_pos hpath]; rfl)]

theorem parseAuthTry_run_noCode {cfg : Config} {env : Env} {request : Request}
    (hpath : cfg.parseAuthPath ≠ "") (hcode : truthy request.params.code = false)
    (t : List Call) :
    parseAuthTry cfg env request t = (.error .missingCode, t) := by
  unfold parseAuthTry
  rw [bindM_run_ok (show (if cfg.parseAuthPath = "" then M.throw .parseAuthPathNotSet else M.pure ()) t = ((.ok () : Except AuthError Unit), t) by rw [if_neg hpath]; rfl)]
  rw [if_neg (by simp [hcode])]
  rfl

theorem parseAuthTry_run_csrfFail {cfg : Config} {env : Env} {request : Request}
    {e : AuthError} (hpath : cfg.parseAuthPath ≠ "")
    (hcode : truthy request.params.code = true)
    (hcsrf : cfg.csrfProtection.isSome = true)
    (hval : validateCSRFCookies cfg request = .error e) (t : List Call) :
    parseAuthTry cfg env request t = (.error e, t) := by
  unfold parseAuthTry
  rw [bindM_run_ok (show (if cfg.parseAuthPath = "" then M.throw .parseAuthPathNotSet else M.pure ()) t = ((.ok () : Except AuthError Unit), t) by rw [if_neg hpath]; rfl)]
  rw [if_pos hcode, if_pos hcsrf]
  rw [bindM_run_error (liftE_run_error hval t)]

theorem parseAuthTry_run_exchangeFail {cfg : Config} {env : Env} {request : Request}
    (hpath : cfg.parseAuthPath ≠ "") (hcode : truthy request.params.code = true)
    (t : List Call)
    (hgate : (if cfg.csrfProtection.isSome then liftE (validateCSRFCookies cfg request)
      else M.pure ()) t = (.ok (), t))
    (hex : env.exchangeCode ("https://" ++ request.host ++ "/" ++ cfg.parseAuthPath)
      request.params.code = none) :
    parseAuthTry cfg env request t = (.error .exchangeFailed,
      t ++ [.exchangeCode ("https://" ++ request.host ++ "/" ++ cfg.parseAuthPath)
        request.params.code]) := by
  unfold parseAuthTry
  rw [bindM_run_ok (show (if cfg.parseAuthPath = "" then M.throw .parseAuthPathNotSet else M.pure ()) t = ((.ok () : Except AuthError Unit), t) by rw [if_neg hpath]; rfl)]
  rw [if_pos hcode, bindM_run_ok hgate]
  rw [bindM_run_error (show fetchTokensFromCode env ("https://" ++ request.host ++ "/" ++ cfg.parseAuthPath) request.params.code t = (.error .exchangeFailed, t ++ [.exchangeCode ("https://" ++ request.host ++ "/" ++ cfg.parseAuthPath) request.params.code]) by rw [fetchTokensFromCode_run, hex])]

theorem parseAuthTry_run_stateFail {cfg : Config} {env : Env} {request : Request}
    {resp : TokenResp} {e : AuthError}
    (hpath : cfg.parseAuthPath ≠ "") (hcode : truthy request.params.code = true)
    (t : List Call)
    (hgate : (if cfg.csrfProtection.isSome then liftE (validateCSRFCookies cfg request)
      else M.pure ()) t = (.ok (), t))
    (hex : env.exchangeCode ("https://" ++ request.host ++ "/" ++ cfg.parseAuthPath)
      request.params.code = some resp)
    (hst : getRedirectUriFromState cfg request.params.state = .error e) :
    parseAuthTry cfg env request t = (.error e,
      t ++ [.exchangeCode ("https://" ++ request.host ++ "/" ++ cfg.parseAuthPath)
        request.params.code]) := by
  unfold parseAuthTry
  rw [bindM_run_ok (show (if cfg.parseAuthPath = "" then M.throw .parseAuthPathNotSet else M.pure ()) t = ((.ok () : Except AuthError Unit), t) by rw [if_neg hpath]; rfl)]
  rw [if_pos hcode, bindM_run_ok hgate]
  rw [bindM_run_ok (show fetchTokensFromCode env ("https://" ++ request.host ++ "/" ++ cfg.parseAuthPath) request.params.code t = (.ok (⟨resp.id_token, resp.access_token, resp.refresh_token⟩ : TokenSet), t ++ [.exchangeCode ("https://" ++ request.host ++ "/" ++ cfg.parseAuthPath) request.params.code]) by rw [fetchTokensFromCode_run, hex])]
  rw [bindM_run_error (liftE_run_error hst _)]

theorem parseAuthTry_run_redirect {cfg : Config} {env : Env} {request : Request}
    {resp : TokenResp} {loc : Option String}
    (hpath : cfg.parseAuthPath ≠ "") (hcode : truthy request.params.code = true)
    (t : List Call)
    (hgate : (if cfg.csrfProtection.isSome then liftE (validateCSRFCookies cfg request)
      else M.pure ()) t = (.ok (), t))
    (hex : env.exchangeCode ("https://" ++ request.host ++ "/" ++ cfg.parseAuthPath)
      request.params.code = some resp)
    (hst : getRedirectUriFromState cfg request.params.state = .ok loc) :
    parseAuthTry cfg env request t =
      (getRedirectResponse cfg env
        (⟨resp.id_token, resp.access_token, resp.refresh_token⟩ : TokenSet)
        request.host loc,
      t ++ [.exchangeCode ("https://" ++ request.host ++ "/" ++ cfg.parseAuthPath)
        request.params.code]) := by
  unfold parseAuthTry
  rw [bindM_run_ok (show (if cfg.parseAuthPath = "" then M.throw .parseAuthPathNotSet else M.pure ()) t = ((.ok () : Except AuthError Unit), t) by rw [if_neg hpath]; rfl)]
  rw [if_pos hcode, bindM_run_ok hgate]
  rw [bindM_run_ok (show fetchTokensFromCode env ("https://" ++ request.host ++ "/" ++ cfg.parseAuthPath) request.params.code t = (.ok (⟨resp.id_token, resp.access_token, resp.refresh_token⟩ : TokenSet), t ++ [.exchangeCode ("https://" ++ request.host ++ "/" ++ cfg.parseAuthPath) request.params.code]) by rw [fetchTokensFromCode_run, hex])]
  rw [bindM_run_ok (liftE_run_ok hst _)]
  cases hred : getRedirectResponse cfg env
      (⟨resp.id_token, resp.access_token, resp.refresh_token⟩ : TokenSet)
      request.host loc with
  | ok r => rw [liftE_run_ok rfl _]
  | error e => rw [liftE_run_error rfl _]

/-! ### Concrete fixtures used by witnesses and counterexamples -/

/-- A concrete configuration with CSRF protection and logout configured. -/
def cfgW : Config :=
  { userPoolAppId := "app"
    userPoolDomain := "auth.example.com"
    cookieExpirationDays := 365
    disableCookieDomain := false
    cookieDomain := none
    httpOnly := false
    sameSite := none
    cookiePath := none
    cookieSettingsOverrides := fun _ => none
    csrfProtection := some ⟨"sek"⟩
    logoutConfiguration := some ⟨"/signout", none⟩
    parseAuthPath := "parseauth" }

/-- Like `cfgW` but with CSRF protection disabled. -/
def cfgNoCsrf : Config := { cfgW with csrfProtection := none }

/-- A concrete environment: one id token verifies, one code and one
refresh token exchange successfully, revoke always fails. -/
def envW : Env :=
  { verify := fun t => if t = some "goodid" then some "alice" else none
    exchangeCode := fun _ c => if c = some "okcode" then
        some ⟨some "goodid", some "acc", some "ref"⟩ else none
    exchangeRefresh := fun _ r => if r = some "goodref" then
        some ⟨some "goodid", some "acc2", none⟩ else none
    revokeOk := fun _ => false
    now := 1000
    freshNonce := "fn"
    freshPkce := "fp" }

/-- A request with a valid session cookie and no query parameters. -/
def reqSession : Request :=
  { uri := "/private/page"
    querystring := ""
    params := { code := none, state := none, redirect_uri := none }
    host := "d.example.com"
    cookies := some [⟨"CognitoIdentityServiceProvider.app.alice.idToken", "goodid"⟩] }

/-- A request extending the configured logout uri, with a valid session. -/
def reqLogoutExt : Request :=
  { uri := "/signout/everywhere"
    querystring := ""
    params := { code := none, state := none, redirect_uri := none }
    host := "d.example.com"
    cookies := some [⟨"CognitoIdentityServiceProvider.app.alice.idToken", "goodid"⟩] }

/-! ### C4 -/

/-- C4: whenever the session cookies yield a token set whose ID token the
verifier accepts, and the request uri does not match a configured logout
path, the default gate returns the original request unchanged: the very
same `Request` value is forwarded, no response (hence no `Set-Cookie`
header) is produced, and the call trace is untouched. -/
theorem handle_forwards_verified_request (cfg : Config) (env : Env)
    (request : Request) (tokens : TokenSet) (u : String)
    (htok : getTokensFromCookie cfg request.cookies = .ok tokens)
    (hlog : logoutMatch cfg request = false)
    (hver : env.verify tokens.idToken = some u) :
    ∀ t, handle cfg env request t = (.ok (.forward request), t) := fun t =>
  tryCatchM_run_ok (handleTry_run_forward htok hlog hver t)

/-- Witness for C4: a concrete run with a verified session forwards the
request untouched with an empty call trace. -/
theorem handle_forwards_verified_request_witness :
    handle cfgW envW reqSession [] = (.ok (.forward reqSession), []) :=
  handle_forwards_verified_request cfgW envW reqSession
    { idToken := some "goodid", accessToken := none, refreshToken := none } "alice"
    (by decide) (by decide) (by decide) []

/-! ### C10 -/

/-- C10: with a logout configuration present, any request whose uri merely
starts with the configured logout uri is routed by the default gate to
sign-out handling: the result is always a 302 response whose cookies are
all cleared (empty value, expiry at the current instant), never a forward,
regardless of the verify, revoke, or extraction oracle outcomes. -/
theorem handle_logout_routing (cfg : Config) (env : Env) (request : Request)
    (lc : LogoutConfig) (hlc : cfg.logoutConfiguration = some lc)
    (hstart : strStarts request.uri lc.logoutUri = true) :
    ∃ resp trace, handle cfg env request [] = (.ok (.response resp), trace) ∧
      resp.status = "302" ∧
      ∀ c ∈ resp.setCookies, c.value = some "" ∧ c.attrs.expires = some env.now := by
  have hlog : logoutMatch cfg request = true := by
    simp [logoutMatch, hlc, hstart]
  cases htok : getTokensFromCookie cfg request.cookies with
  | ok tokens =>
    by_cases hrev : env.revokeOk tokens.refreshToken
    · have h := @handleTry_run_logout cfg env request tokens htok hlog []
      rw [if_pos hrev] at h
      exact ⟨clearCookies cfg env request tokens, _, tryCatchM_run_ok h,
        (clearCookies_props cfg env request tokens).1,
        (clearCookies_props cfg env request tokens).2.2.2.2⟩
    · have h := @handleTry_run_logout cfg env request tokens htok hlog []
      rw [if_neg hrev] at h
      have h2 := tryCatchM_run_error (g := handleCatch cfg env request
        ("https://" ++ request.host)) h
      have h3 : handleCatch cfg env request ("https://" ++ request.host)
          .revokeFailed ([] ++ [Call.revoke tokens.refreshToken]) =
          (.ok (.response (clearCookies cfg env request {})),
            [] ++ [Call.revoke tokens.refreshToken]) := by
        unfold handleCatch
        rw [if_pos hlog]
        rfl
      exact ⟨clearCookies cfg env request {}, _, h2.trans h3,
        (clearCookies_props cfg env request {}).1,
        (clearCookies_props cfg env request {}).2.2.2.2⟩
  | error e =>
    have h2 := tryCatchM_run_error (g := handleCatch cfg env request
      ("https://" ++ request.host)) (@handleTry_run_noTokens cfg env request e htok [])
    have h3 : handleCatch cfg env request ("https://" ++ request.host) e [] =
        (.ok (.response (clearCookies cfg env request {})), []) := by
      unfold handleCatch
      rw [if_pos hlog]
      rfl
    exact ⟨clearCookies cfg env request {}, _, h2.trans h3,
      (clearCookies_props cfg env request {}).1,
      (clearCookies_props cfg env request {}).2.2.2.2⟩

/-- Witness for C10: a uri strictly extending the logout path (not equal
to it) still routes to sign-out handling, even though its session token
is valid. -/
theorem handle_logout_routing_witness :
    reqLogoutExt.uri ≠ "/signout" ∧
    envW.verify (some "goodid") = some "alice" ∧
    (∃ resp trace, handle cfgW envW reqLogoutExt [] = (.ok (.response resp), trace) ∧
      resp.status = "302" ∧
      ∀ c ∈ resp.setCookies, c.value = some "" ∧ c.attrs.expires = some envW.now) :=
  ⟨by decide, by decide,
    handle_logout_routing cfgW envW reqLogoutExt ⟨"/signout", none⟩
      (by decide) (by decide)⟩

/-! ### C9 -/

/-- C9: session cookies are only ever written for a token set whose ID
token has just been verified: `_getRedirectResponse` verifies the token
before building any `Set-Cookie` header, so it fails without producing a
response when verification fails, a produced response implies the token
verified, and on the callback flow such a failure propagates to the
calling flow error handling (the 400 answer). -/
theorem sessionCookies_require_verification (cfg : Config) (env : Env)
    (tokens : TokenSet) (domain : String) (loc : Option String) :
    (env.verify tokens.idToken = none →
      getRedirectResponse cfg env tokens domain loc = .error .verifyFailed) ∧
    (∀ r, getRedirectResponse cfg env tokens domain loc = .ok r →
      ∃ u, env.verify tokens.idToken = some u) ∧
    (∀ request resp,
      cfg.parseAuthPath ≠ "" → truthy request.params.code = true →
      cfg.csrfProtection = none →
      env.exchangeCode ("https://" ++ request.host ++ "/" ++ cfg.parseAuthPath)
        request.params.code = some resp →
      env.verify resp.id_token = none →
      handleParseAuth cfg env request [] =
        (.ok { status := "400", location := none, cacheControl := none,
               pragma := none, setCookies := [],
               body := some AuthError.verifyFailed.describe },
          [.exchangeCode ("https://" ++ request.host ++ "/" ++ cfg.parseAuthPath)
            request.params.code])) := by
  refine ⟨?_, ?_, ?_⟩
  · intro h
    unfold getRedirectResponse
    rw [h]
  · intro r h
    cases hv : env.verify tokens.idToken with
    | some u => exact ⟨u, rfl⟩
    | none =>
      unfold getRedirectResponse at h
      rw [hv] at h
      exact absurd h (by simp)
  · intro request resp hpath hcode hcsrf hex hver
    have hst : getRedirectUriFromState cfg request.params.state =
        .ok (request.params.state.map StateParam.render) := by
      unfold getRedirectUriFromState
      rw [hcsrf]
      rfl
    have hred : getRedirectResponse cfg env
        (⟨resp.id_token, resp.access_token, resp.refresh_token⟩ : TokenSet)
        request.host (request.params.state.map StateParam.render) =
        .error .verifyFailed := by
      unfold getRedirectResponse
      dsimp only
      rw [hver]
    have htry : parseAuthTry cfg env request [] = (.error .verifyFailed,
        [.exchangeCode ("https://" ++ request.host ++ "/" ++ cfg.parseAuthPath)
          request.params.code]) := by
      have h0 := @parseAuthTry_run_redirect cfg env request resp
        (request.params.state.map StateParam.render) hpath hcode []
        (csrfGate_run_off (by rw [hcsrf]; rfl) []) hex hst
      rw [hred] at h0
      simpa using h0
    exact (tryCatchM_run_error htry).trans rfl

/-- Witness for C9: a concrete token set whose ID token fails
verification makes `getRedirectResponse` fail without any cookie
output. -/
theorem sessionCookies_require_verification_witness :
    getRedirectResponse cfgW envW
      { idToken := some "expired", accessToken := none, refreshToken := none }
      "d.example.com" none = .error .verifyFailed :=
  (sessionCookies_require_verification cfgW envW
    { idToken := some "expired", accessToken := none, refreshToken := none }
    "d.example.com" none).1 (by decide)

/-! ### C8 -/

/-- C8: resolving the per-cookie-type override replaces exactly the
fields the override specifies (`httpOnly`, `sameSite`, `path`, and
`expires` recomputed from `expirationDays` and the current time), leaves
every unspecified field at its base value (with no override the base set
is returned unchanged), and this resolution is what the set-cookie
redirect applies to the access, id and refresh token cookies it writes. -/
theorem cookieOverride_exact_replacement (cfg : Config) (now : Nat)
    (base : CookieAttributes) (ct : CookieType) (o : CookieOverride)
    (hov : cfg.cookieSettingsOverrides ct = some o) :
    ((getOverridenCookieAttributes cfg now base ct).httpOnly =
        o.httpOnly.getD base.httpOnly ∧
      (getOverridenCookieAttributes cfg now base ct).sameSite =
        (match o.sameSite with | some s => some s | none => base.sameSite) ∧
      (getOverridenCookieAttributes cfg now base ct).path =
        (match o.path with | some p => some p | none => base.path) ∧
      (getOverridenCookieAttributes cfg now base ct).expires =
        (match o.expirationDays with
         | some d => some (now + d * 86400000)
         | none => base.expires) ∧
      (getOverridenCookieAttributes cfg now base ct).domain = base.domain ∧
      (getOverridenCookieAttributes cfg now base ct).secure = base.secure) ∧
    (∀ ct2, cfg.cookieSettingsOverrides ct2 = none →
      getOverridenCookieAttributes cfg now base ct2 = base) ∧
    (∀ (env : Env) (domain : String) (loc : Option String) (tokens : TokenSet)
       (u : String) (r : Response),
      env.verify tokens.idToken = some u →
      getRedirectResponse cfg env tokens domain loc = .ok r →
      (⟨cfg.cookieBase ++ "." ++ u ++ ".idToken", tokens.idToken,
        getOverridenCookieAttributes cfg env.now (sessionCookieAttrs cfg env domain)
          .idToken⟩ : SetCookie) ∈ r.setCookies ∧
      (⟨cfg.cookieBase ++ "." ++ u ++ ".accessToken", tokens.accessToken,
        getOverridenCookieAttributes cfg env.now (sessionCookieAttrs cfg env domain)
          .accessToken⟩ : SetCookie) ∈ r.setCookies ∧
      (truthy tokens.refreshToken = true →
        (⟨cfg.cookieBase ++ "." ++ u ++ ".refreshToken", tokens.refreshToken,
          getOverridenCookieAttributes cfg env.now (sessionCookieAttrs cfg env domain)
            .refreshToken⟩ : SetCookie) ∈ r.setCookies)) := by
  refine ⟨?_, ?_, ?_⟩
  · unfold getOverridenCookieAttributes
    rw [hov]
    cases o with
    | mk oh os op oe =>
      cases oh <;> cases os <;> cases op <;> cases oe <;>
        exact ⟨rfl, rfl, rfl, rfl, rfl, rfl⟩
  · intro ct2 h
    unfold getOverridenCookieAttributes
    rw [h]
  · intro env domain loc tokens u r hver hok
    unfold getRedirectResponse at hok
    rw [hver] at hok
    simp only [Except.ok.injEq] at hok
    subst hok
    refine ⟨?_, ?_, ?_⟩
    · simp [List.mem_append, List.mem_cons]
    · simp [List.mem_append, List.mem_cons]
    · intro hrt
      simp [List.mem_append, List.mem_cons, hrt]

/-- A configuration with a path and expiry override for the id token
cookie. -/
def cfgOv : Config :=
  { cfgW with
    cookieSettingsOverrides := fun ct =>
      match ct with
      | .idToken => some { path := some "/app", expirationDays := some 1 }
      | _ => none }

/-- A base cookie attribute set used by the C8 witness. -/
def baseW : CookieAttributes :=
  { domain := some "d.example.com"
    expires := some 500
    secure := true
    httpOnly := true
    sameSite := some .lax
    path := none }

/-- Witness for C8: at a concrete override, the specified fields are
replaced (path, expiry recomputed from now = 0) and the unspecified
domain and httpOnly keep their base values. -/
theorem cookieOverride_exact_replacement_witness :
    (getOverridenCookieAttributes cfgOv 0 baseW .idToken).path = some "/app" ∧
    (getOverridenCookieAttributes cfgOv 0 baseW .idToken).expires = some 86400000 ∧
    (getOverridenCookieAttributes cfgOv 0 baseW .idToken).domain = baseW.domain ∧
    (getOverridenCookieAttributes cfgOv 0 baseW .idToken).httpOnly = baseW.httpOnly ∧
    getOverridenCookieAttributes cfgOv 0 baseW .accessToken = baseW := by
  have h := cookieOverride_exact_replacement cfgOv 0 baseW .idToken
    { path := some "/app", expirationDays := some 1 } (by decide)
  exact ⟨h.1.2.2.1.trans rfl, h.1.2.2.2.1.trans rfl,
    h.1.2.2.2.2.1, h.1.1.trans rfl, h.2.1 .accessToken (by decide)⟩

/-! ### C2 -/

/-- A callback request carrying the given state parameter and the three
CSRF cookies with the given values. -/
def csrfRequest (cfg : Config) (state : Option StateParam)
    (nonceV nonceHmacV pkceV : String) : Request :=
  { uri := "/parseauth"
    querystring := ""
    params := { code := some "c0", state := state, redirect_uri := none }
    host := "d.example.com"
    cookies := some
      [ ⟨cfg.cookieBase ++ "." ++ nonceCookieTail, nonceV⟩,
        ⟨cfg.cookieBase ++ "." ++ nonceHmacCookieTail, nonceHmacV⟩,
        ⟨cfg.cookieBase ++ "." ++ pkceCookieTail, pkceV⟩ ] }

theorem getCSRF_three_cookies (cfg : Config) (nv hv pv : String) :
    getCSRFTokensFromCookie cfg (some
      [ ⟨cfg.cookieBase ++ "." ++ nonceCookieTail, nv⟩,
        ⟨cfg.cookieBase ++ "." ++ nonceHmacCookieTail, hv⟩,
        ⟨cfg.cookieBase ++ "." ++ pkceCookieTail, pv⟩ ]) =
      .ok { nonce := some nv, nonceHmac := some hv, pkce := some pv } := by
  have hstart : ∀ tail : String,
      strStarts (cfg.cookieBase ++ "." ++ tail) cfg.cookieBase = true :=
    fun tail => strStarts_append2 _ _ _
  have hNN : strEnds (cfg.cookieBase ++ "." ++ nonceCookieTail)
      ("." ++ nonceCookieTail) = true := strEnds_append2 _ _ _
  have hHH : strEnds (cfg.cookieBase ++ "." ++ nonceHmacCookieTail)
      ("." ++ nonceHmacCookieTail) = true := strEnds_append2 _ _ _
  have hPP : strEnds (cfg.cookieBase ++ "." ++ pkceCookieTail)
      ("." ++ pkceCookieTail) = true := strEnds_append2 _ _ _
  have hNH : strEnds (cfg.cookieBase ++ "." ++ nonceCookieTail)
      ("." ++ nonceHmacCookieTail) = false :=
    strEnds_append2_ne _ _ _ (by decide) (by decide)
  have hNP : strEnds (cfg.cookieBase ++ "." ++ nonceCookieTail)
      ("." ++ pkceCookieTail) = false :=
    strEnds_append2_ne _ _ _ (by decide) (by decide)
  have hHN : strEnds (cfg.cookieBase ++ "." ++ nonceHmacCookieTail)
      ("." ++ nonceCookieTail) = false :=
    strEnds_append2_ne _ _ _ (by decide) (by decide)
  have hHP : strEnds (cfg.cookieBase ++ "." ++ nonceHmacCookieTail)
      ("." ++ pkceCookieTail) = false :=
    strEnds_append2_ne _ _ _ (by decide) (by decide)
  have hPN : strEnds (cfg.cookieBase ++ "." ++ pkceCookieTail)
      ("." ++ nonceCookieTail) = false :=
    strEnds_append2_ne _ _ _ (by decide) (by decide)
  have hPH : strEnds (cfg.cookieBase ++ "." ++ pkceCookieTail)
      ("." ++ nonceHmacCookieTail) = false :=
    strEnds_append2_ne _ _ _ (by decide) (by decide)
  unfold getCSRFTokensFromCookie
  simp [List.foldl, hstart, hNN, hHH, hPP, hNH, hNP, hHN, hHP, hPN, hPH]

theorem validate_csrfRequest_run (cfg : Config) (csrf : CSRFConfig)
    (hcfg : cfg.csrfProtection = some csrf) (n r nv hv pv : String) :
    validateCSRFCookies cfg (csrfRequest cfg (some (.enc n r)) nv hv pv) =
      (if n = "" ∨ truthy (some nv) = false ∨ (some nv : Option String) ≠ some n then
        (if truthy (some nv) = false then .error .missingNonceCookie
         else .error .nonceMismatch)
      else if truthy (some pv) = false then .error .missingPkceCookie
      else if (some (signNonce n csrf.nonceSigningSecret) : Option String) ≠ some hv then
        .error .signatureMismatch
      else .ok ()) := by
  unfold validateCSRFCookies
  rw [hcfg]
  show ((getCSRFTokensFromCookie cfg (csrfRequest cfg (some (.enc n r)) nv hv pv).cookies).bind
    fun t => _) = _
  rw [show (csrfRequest cfg (some (.enc n r)) nv hv pv).cookies = some
      [ ⟨cfg.cookieBase ++ "." ++ nonceCookieTail, nv⟩,
        ⟨cfg.cookieBase ++ "." ++ nonceHmacCookieTail, hv⟩,
        ⟨cfg.cookieBase ++ "." ++ pkceCookieTail, pv⟩ ] from rfl]
  rw [getCSRF_three_cookies]
  rfl

/-- C2 counterexample: after generating the CSRF state, a single-byte
mutation of the PKCE cookie value (same length, one character changed,
still nonempty) passes validation, because the code checks the PKCE
cookie only for presence — refuting the claim that any single-byte
mutation of the PKCE value makes validation fail. -/
theorem csrf_pkce_mutation_passes_counterexample :
    validateCSRFCookies cfgW (csrfRequest cfgW
      (some (generateCSRFTokens "https://d.example.com" "sek" "n1" "p1").state)
      (generateCSRFTokens "https://d.example.com" "sek" "n1" "p1").nonce
      (generateCSRFTokens "https://d.example.com" "sek" "n1" "p1").nonceHmac
      "pX") = .ok () ∧
    "pX" ≠ (generateCSRFTokens "https://d.example.com" "sek" "n1" "p1").pkce ∧
    ("pX" : String).length =
      (generateCSRFTokens "https://d.example.com" "sek" "n1" "p1").pkce.length := by
  refine ⟨?_, by decide, by decide⟩
  rw [show (generateCSRFTokens "https://d.example.com" "sek" "n1" "p1").state =
    StateParam.enc "n1" "https://d.example.com" from rfl]
  rw [validate_csrfRequest_run cfgW ⟨"sek"⟩ rfl]
  decide

/-- C2 (amended): generation followed by validation on exactly the
cookies generation would set succeeds; a mutated (nonempty, different)
nonce cookie fails with the nonce-mismatch kind, an emptied nonce cookie
with the missing-nonce kind, a mutated nonce HMAC cookie with the
signature-mismatch kind, and an emptied PKCE cookie with the
missing-PKCE kind — but a mutated nonempty PKCE cookie passes, since the
PKCE cookie is checked only for presence. -/
theorem csrf_roundTrip_and_mutations (cfg : Config) (csrf : CSRFConfig)
    (hcfg : cfg.csrfProtection = some csrf)
    (redirectUri nonce pkce : String) (hn : nonce ≠ "") (hp : pkce ≠ "") :
    (validateCSRFCookies cfg (csrfRequest cfg
        (some (generateCSRFTokens redirectUri csrf.nonceSigningSecret nonce pkce).state)
        (generateCSRFTokens redirectUri csrf.nonceSigningSecret nonce pkce).nonce
        (generateCSRFTokens redirectUri csrf.nonceSigningSecret nonce pkce).nonceHmac
        (generateCSRFTokens redirectUri csrf.nonceSigningSecret nonce pkce).pkce)
      = .ok ()) ∧
    (∀ nv, nv ≠ nonce → nv ≠ "" →
      validateCSRFCookies cfg (csrfRequest cfg (some (.enc nonce redirectUri)) nv
        (signNonce nonce csrf.nonceSigningSecret) pkce) = .error .nonceMismatch) ∧
    (validateCSRFCookies cfg (csrfRequest cfg (some (.enc nonce redirectUri)) ""
        (signNonce nonce csrf.nonceSigningSecret) pkce)
      = .error .missingNonceCookie) ∧
    (∀ hv, hv ≠ signNonce nonce csrf.nonceSigningSecret →
      validateCSRFCookies cfg (csrfRequest cfg (some (.enc nonce redirectUri)) nonce
        hv pkce) = .error .signatureMismatch) ∧
    (validateCSRFCookies cfg (csrfRequest cfg (some (.enc nonce redirectUri)) nonce
        (signNonce nonce csrf.nonceSigningSecret) "")
      = .error .missingPkceCookie) ∧
    (∀ pv, pv ≠ "" →
      validateCSRFCookies cfg (csrfRequest cfg (some (.enc nonce redirectUri)) nonce
        (signNonce nonce csrf.nonceSigningSecret) pv) = .ok ()) := by
  have hgen : ∀ pv, pv ≠ "" →
      validateCSRFCookies cfg (csrfRequest cfg (some (.enc nonce redirectUri)) nonce
        (signNonce nonce csrf.nonceSigningSecret) pv) = .ok () := by
    intro pv hpv
    rw [validate_csrfRequest_run cfg csrf hcfg]
    rw [if_neg (by simp [truthy, hn]), if_neg (by simp [truthy, hpv]),
      if_neg (by simp)]
  refine ⟨?_, ?_, ?_, ?_, ?_, hgen⟩
  · exact hgen pkce hp
  · intro nv hne hnv
    rw [validate_csrfRequest_run cfg csrf hcfg]
    rw [if_pos (by simp [hne]), if_neg (by simp [truthy, hnv])]
  · rw [validate_csrfRequest_run cfg csrf hcfg]
    rw [if_pos (by simp [truthy]), if_pos (by simp [truthy])]
  · intro hv hne
    rw [validate_csrfRequest_run cfg csrf hcfg]
    rw [if_neg (by simp [truthy, hn]), if_neg (by simp [truthy, hp]),
      if_pos (by simp [Ne.symm hne])]
  · rw [validate_csrfRequest_run cfg csrf hcfg]
    rw [if_neg (by simp [truthy, hn]), if_pos (by simp [truthy])]

/-- Witness for C2 (amended) at concrete values: the round trip succeeds
and the nonce and HMAC mutations fail with their kinds. -/
theorem csrf_roundTrip_and_mutations_witness :
    (validateCSRFCookies cfgW (csrfRequest cfgW
        (some (generateCSRFTokens "https://d.example.com" "sek" "n1" "p1").state)
        (generateCSRFTokens "https://d.example.com" "sek" "n1" "p1").nonce
        (generateCSRFTokens "https://d.example.com" "sek" "n1" "p1").nonceHmac
        (generateCSRFTokens "https://d.example.com" "sek" "n1" "p1").pkce)
      = .ok ()) ∧
    (validateCSRFCookies cfgW (csrfRequest cfgW
        (some (.enc "n1" "https://d.example.com")) "n2"
        (signNonce "n1" "sek") "p1") = .error .nonceMismatch) ∧
    (validateCSRFCookies cfgW (csrfRequest cfgW
        (some (.enc "n1" "https://d.example.com")) "n1" "hX" "p1")
      = .error .signatureMismatch) := by
  have h := csrf_roundTrip_and_mutations cfgW ⟨"sek"⟩ rfl
    "https://d.example.com" "n1" "p1" (by decide) (by decide)
  exact ⟨h.1, h.2.1 "n2" (by decide) (by decide), h.2.2.2.1 "hX" (by decide)⟩

/-! ### C1 -/

/-- A request to the default gate with CSRF protection cookies whose
nonce does not match the state nonce (tampered), no session cookies, and
an authorization code. -/
def reqTampered : Request :=
  { uri := "/"
    querystring := "q"
    params := { code := some "okcode",
                state := some (.enc "nX" "https://d.example.com"),
                redirect_uri := none }
    host := "d.example.com"
    cookies := some
      [ ⟨"CognitoIdentityServiceProvider.app.nonce", "nY"⟩,
        ⟨"CognitoIdentityServiceProvider.app.nonceHmac", signNonce "nY" "sek"⟩,
        ⟨"CognitoIdentityServiceProvider.app.pkce", "pk"⟩ ] }

/-- C1 counterexample: with CSRF protection enabled and a tampered state
nonce (CSRF validation would fail on this request), the default gate
still calls the token endpoint to exchange the code: its code path
performs no CSRF validation, refuting the claim for `handle`. -/
theorem handle_exchanges_despite_tampered_nonce_counterexample :
    cfgW.csrfProtection.isSome = true ∧
    validateCSRFCookies cfgW reqTampered = .error .nonceMismatch ∧
    Call.exchangeCode "https://d.example.com" (some "okcode")
      ∈ (handle cfgW envW reqTampered []).2 := by
  refine ⟨rfl, by decide, by decide⟩

/-- C1 (amended): on the callback flow `handleParseAuth`, CSRF validation
strictly precedes the code exchange: whenever validation fails (in
particular on a tampered nonce), the flow answers the 400 error response
with an empty call trace, so no token-endpoint call is ever made.  (The
default gate performs no CSRF validation on its own code path; validation
is only invoked on the callback flow.) -/
theorem parseAuth_csrf_before_exchange (cfg : Config) (env : Env)
    (request : Request) (e : AuthError)
    (hcsrf : cfg.csrfProtection.isSome = true)
    (hpath : cfg.parseAuthPath ≠ "")
    (hcode : truthy request.params.code = true)
    (hval : validateCSRFCookies cfg request = .error e) :
    handleParseAuth cfg env request [] =
      (.ok { status := "400", location := none, cacheControl := none,
             pragma := none, setCookies := [], body := some e.describe }, []) := by
  have htry := @parseAuthTry_run_csrfFail cfg env request e hpath hcode hcsrf hval []
  exact (tryCatchM_run_error htry).trans rfl

/-- Witness for C1 (amended): a concrete tampered-nonce callback request
is answered 400 with an empty call trace. -/
theorem parseAuth_csrf_before_exchange_witness :
    handleParseAuth cfgW envW (csrfRequest cfgW
      (some (.enc "nX" "https://d.example.com")) "nY" (signNonce "nY" "sek") "pk") [] =
      (.ok { status := "400", location := none, cacheControl := none,
             pragma := none, setCookies := [],
             body := some AuthError.nonceMismatch.describe }, []) :=
  parseAuth_csrf_before_exchange cfgW envW _ .nonceMismatch rfl
    (by decide) (by decide) (by decide)

/-! ### C6 -/

/-- A sign-out request with a verifiable session and a refresh token. -/
def reqOut : Request :=
  { uri := "/signout"
    querystring := ""
    params := { code := none, state := none, redirect_uri := none }
    host := "d.example.com"
    cookies := some
      [ ⟨"CognitoIdentityServiceProvider.app.alice.idToken", "goodid"⟩,
        ⟨"CognitoIdentityServiceProvider.app.alice.refreshToken", "goodref"⟩ ] }

/-- C6 counterexample: on a concrete sign-out whose revoke call fails,
the cleared cookies carry `Expires` equal to the handling instant
(`env.now`), not an instant strictly in the past — refuting the claim
read as expiry strictly before the time of handling. -/
theorem signOut_expiry_not_past_counterexample :
    envW.revokeOk (some "goodref") = false ∧
    ((handleSignOut cfgW envW reqOut []).1.map fun r =>
      r.setCookies.map fun c => c.attrs.expires) = .ok [some 1000, some 1000] ∧
    envW.now = 1000 ∧ ¬ (1000 < 1000) := by
  decide

/-- C6 (amended): for every request, `handleSignOut` answers a 302 whose
Set-Cookie headers clear cookies with empty values and `Expires` set to
the instant of handling (not later, though also not strictly earlier),
even when the revoke call fails; the Location is the configured
logout-redirect uri if truthy, else the `redirect_uri` query parameter if
truthy, else the site root, in that priority order. -/
theorem signOut_always_clears (cfg : Config) (env : Env) (request : Request) :
    ∃ resp trace, handleSignOut cfg env request [] = (.ok resp, trace) ∧
      resp.status = "302" ∧
      resp.location = some (jsOrStr
        (cfg.logoutConfiguration.bind fun l => l.logoutRedirectUri)
        (jsOrStr request.params.redirect_uri ("https://" ++ request.host))) ∧
      ∀ c ∈ resp.setCookies, c.value = some "" ∧ c.attrs.expires = some env.now := by
  cases htok : getTokensFromCookie cfg request.cookies with
  | error e =>
    exact ⟨clearCookies cfg env request {}, [],
      (tryCatchM_run_error (signOutTry_run_noTokens htok [])).trans rfl,
      (clearCookies_props cfg env request {}).1,
      (clearCookies_props cfg env request {}).2.2.2.1,
      (clearCookies_props cfg env request {}).2.2.2.2⟩
  | ok tokens =>
    by_cases hrev : env.revokeOk tokens.refreshToken
    · have h := @signOutTry_run_tokens cfg env request tokens htok []
      rw [if_pos hrev] at h
      exact ⟨clearCookies cfg env request tokens, _, tryCatchM_run_ok h,
        (clearCookies_props cfg env request tokens).1,
        (clearCookies_props cfg env request tokens).2.2.2.1,
        (clearCookies_props cfg env request tokens).2.2.2.2⟩
    · have h := @signOutTry_run_tokens cfg env request tokens htok []
      rw [if_neg hrev] at h
      exact ⟨clearCookies cfg env request {}, _,
        (tryCatchM_run_error h).trans rfl,
        (clearCookies_props cfg env request {}).1,
        (clearCookies_props cfg env request {}).2.2.2.1,
        (clearCookies_props cfg env request {}).2.2.2.2⟩

/-! ### Shape of the default gate and callback flows -/

/-- The possible outcomes of the default gate. -/
def HandleOutcome (cfg : Config) (env : Env) (request : Request)
    (t : List Call) : Prop :=
  (∃ tr, handle cfg env request t = (.ok (.forward request), tr)) ∨
  (∃ ts tr, handle cfg env request t =
    (.ok (.response (clearCookies cfg env request ts)), tr)) ∨
  (∃ ts loc r tr, getRedirectResponse cfg env ts request.host loc = .ok r ∧
    handle cfg env request t = (.ok (.response r), tr)) ∨
  (∃ tr, handle cfg env request t = (.ok (.response
    (getRedirectToCognitoUserPoolResponse cfg env request
      ("https://" ++ request.host))), tr)) ∨
  (∃ e tr, handle cfg env request t = (.error e, tr) ∧
    logoutMatch cfg request = false ∧ truthy request.params.code = true)

theorem handle_from_catch {cfg : Config} {env : Env} {request : Request}
    {t t' : List Call} {e : AuthError}
    (hrun : handle cfg env request t =
      handleCatch cfg env request ("https://" ++ request.host) e t') :
    HandleOutcome cfg env request t := by
  rcases handleCatch_shape cfg env request ("https://" ++ request.host) e t' with
    ⟨r, tr, hcr, hsh⟩ | ⟨e2, tr, hcr, hc1, hc2⟩
  · rcases hsh with hclear | ⟨ts, loc, hred⟩ | hcog
    · exact Or.inr (Or.inl ⟨{}, tr, hclear ▸ (hrun.trans hcr)⟩)
    · exact Or.inr (Or.inr (Or.inl ⟨ts, loc, r, tr, hred, hrun.trans hcr⟩))
    · exact Or.inr (Or.inr (Or.inr (Or.inl ⟨tr, hcog ▸ (hrun.trans hcr)⟩)))
  · exact Or.inr (Or.inr (Or.inr (Or.inr ⟨e2, tr, hrun.trans hcr, hc1, hc2⟩)))

/-- Every run of the default gate lands in one of the five outcomes:
forward, a cookie-clearing response, a verified set-cookie redirect, the
authorize redirect, or an uncaught error (possible only off the logout
path with a code parameter present). -/
theorem handle_cases (cfg : Config) (env : Env) (request : Request)
    (t : List Call) : HandleOutcome cfg env request t := by
  cases htok : getTokensFromCookie cfg request.cookies with
  | error e =>
    exact handle_from_catch
      (tryCatchM_run_error (@handleTry_run_noTokens cfg env request e htok t))
  | ok tokens =>
    by_cases hlog : logoutMatch cfg request
    · by_cases hrev : env.revokeOk tokens.refreshToken
      · have h := @handleTry_run_logout cfg env request tokens htok hlog t
        rw [if_pos hrev] at h
        exact Or.inr (Or.inl ⟨tokens, _, tryCatchM_run_ok h⟩)
      · have h := @handleTry_run_logout cfg env request tokens htok hlog t
        rw [if_neg hrev] at h
        have hrun := tryCatchM_run_error (g := handleCatch cfg env request
          ("https://" ++ request.host)) h
        have hcr : handleCatch cfg env request ("https://" ++ request.host)
            .revokeFailed (t ++ [Call.revoke tokens.refreshToken]) =
            (.ok (.response (clearCookies cfg env request {})),
              t ++ [Call.revoke tokens.refreshToken]) := by
          unfold handleCatch
          rw [if_pos hlog]
          rfl
        exact Or.inr (Or.inl ⟨{}, _, hrun.trans hcr⟩)
    · have hlogf := eq_false_of_ne_true hlog
      cases hver : env.verify tokens.idToken with
      | some u =>
        exact Or.inl ⟨t, tryCatchM_run_ok (handleTry_run_forward htok hlogf hver t)⟩
      | none =>
        by_cases hrt : truthy tokens.refreshToken
        · cases hex : env.exchangeRefresh ("https://" ++ request.host)
              tokens.refreshToken with
          | none =>
            exact handle_from_catch (tryCatchM_run_error
              (handleTry_run_refresh_fail htok hlogf hver hrt hex t))
          | some resp =>
            cases hred : getRedirectResponse cfg env
                (⟨resp.id_token, resp.access_token, none⟩ : TokenSet)
                request.host (some request.uri) with
            | ok r0 =>
              exact Or.inr (Or.inr (Or.inl ⟨_, some request.uri, r0, _, hred,
                tryCatchM_run_ok
                  (handleTry_run_refresh_ok htok hlogf hver hrt hex hred t)⟩))
            | error e0 =>
              exact handle_from_catch (tryCatchM_run_error
                (handleTry_run_refresh_badToken htok hlogf hver hrt hex hred t))
        · exact handle_from_catch (tryCatchM_run_error
            (handleTry_run_noRefresh htok hlogf hver
              (eq_false_of_ne_true hrt) t))

theorem parseAuthTry_ok_shape_aux {cfg : Config} {env : Env} {request : Request}
    {t tr : List Call} {r : Response}
    (hpath : cfg.parseAuthPath ≠ "") (hcode : truthy request.params.code = true)
    (hgate : (if cfg.csrfProtection.isSome then liftE (validateCSRFCookies cfg request)
      else M.pure ()) t = (.ok (), t))
    (h : parseAuthTry cfg env request t = (.ok r, tr)) :
    ∃ ts loc, getRedirectResponse cfg env ts request.host loc = .ok r := by
  cases hex : env.exchangeCode ("https://" ++ request.host ++ "/" ++ cfg.parseAuthPath)
      request.params.code with
  | none =>
    rw [parseAuthTry_run_exchangeFail hpath hcode t hgate hex] at h
    exact absurd h (by simp)
  | some resp =>
    cases hst : getRedirectUriFromState cfg request.params.state with
    | error e =>
      rw [parseAuthTry_run_stateFail hpath hcode t hgate hex hst] at h
      exact absurd h (by simp)
    | ok loc =>
      rw [parseAuthTry_run_redirect hpath hcode t hgate hex hst] at h
      simp only [Prod.mk.injEq] at h
      exact ⟨_, loc, h.1⟩

theorem parseAuthTry_ok_shape {cfg : Config} {env : Env} {request : Request}
    {t tr : List Call} {r : Response}
    (h : parseAuthTry cfg env request t = (.ok r, tr)) :
    ∃ ts loc, getRedirectResponse cfg env ts request.host loc = .ok r := by
  by_cases hpath : cfg.parseAuthPath = ""
  · rw [parseAuthTry_run_noPath hpath] at h
    exact absurd h (by simp)
  · by_cases hcode : truthy request.params.code
    · by_cases hcsrf : cfg.csrfProtection.isSome
      · cases hval : validateCSRFCookies cfg request with
        | error e =>
          rw [parseAuthTry_run_csrfFail hpath hcode hcsrf hval] at h
          exact absurd h (by simp)
        | ok u =>
          cases u
          exact parseAuthTry_ok_shape_aux hpath hcode (csrfGate_run_valid hval t) h
      · exact parseAuthTry_ok_shape_aux hpath hcode
          (csrfGate_run_off (by simp [hcsrf]) t) h
    · rw [parseAuthTry_run_noCode hpath (eq_false_of_ne_true hcode)] at h
      exact absurd h (by simp)

/-- Every run of the callback flow answers `.ok`: either a verified
set-cookie redirect or the 400 response describing the failure. -/
theorem handleParseAuth_cases (cfg : Config) (env : Env) (request : Request)
    (t : List Call) :
    (∃ ts loc r tr, getRedirectResponse cfg env ts request.host loc = .ok r ∧
      handleParseAuth cfg env request t = (.ok r, tr)) ∨
    (∃ e tr, handleParseAuth cfg env request t =
      (.ok { status := "400", location := none, cacheControl := none,
             pragma := none, setCookies := [],
             body := some (AuthError.describe e) }, tr)) := by
  rcases hrun : parseAuthTry cfg env request t with ⟨first, tr⟩
  cases first with
  | ok r =>
    rcases parseAuthTry_ok_shape hrun with ⟨ts, loc, hred⟩
    exact Or.inl ⟨ts, loc, r, tr, hred, tryCatchM_run_ok hrun⟩
  | error e =>
    exact Or.inr ⟨e, tr, (tryCatchM_run_error hrun).trans rfl⟩

theorem refreshTry_ok_shape {cfg : Config} {env : Env} {request : Request}
    {t tr : List Call} {r : Response}
    (h : refreshTry cfg env request t = (.ok r, tr)) :
    ∃ ts loc, getRedirectResponse cfg env ts request.host loc = .ok r := by
  cases htok : getTokensFromCookie cfg request.cookies with
  | error e =>
    rw [refreshTry_run_noTokens htok] at h
    exact absurd h (by simp)
  | ok tokens =>
    cases hver : env.verify tokens.idToken with
    | none =>
      rw [refreshTry_run_invalid htok hver] at h
      exact absurd h (by simp)
    | some u =>
      rw [refreshTry_run_valid htok hver] at h
      cases hex : env.exchangeRefresh
          (jsOrStr request.params.redirect_uri ("https://" ++ request.host))
          tokens.refreshToken with
      | none =>
        rw [hex] at h
        exact absurd h (by simp)
      | some resp =>
        rw [hex] at h
        simp only [Prod.mk.injEq] at h
        exact ⟨_, _, h.1⟩

/-- Every run of the refresh flow answers `.ok`: either a verified
set-cookie redirect or the authorize redirect. -/
theorem handleRefreshToken_cases (cfg : Config) (env : Env) (request : Request)
    (t : List Call) :
    (∃ ts loc r tr, getRedirectResponse cfg env ts request.host loc = .ok r ∧
      handleRefreshToken cfg env request t = (.ok r, tr)) ∨
    (∃ tr, handleRefreshToken cfg env request t =
      (.ok (getRedirectToCognitoUserPoolResponse cfg env request
        (jsOrStr request.params.redirect_uri ("https://" ++ request.host))), tr)) := by
  rcases hrun : refreshTry cfg env request t with ⟨first, tr⟩
  cases first with
  | ok r =>
    rcases refreshTry_ok_shape hrun with ⟨ts, loc, hred⟩
    exact Or.inl ⟨ts, loc, r, tr, hred, tryCatchM_run_ok hrun⟩
  | error e =>
    exact Or.inr ⟨tr, (tryCatchM_run_error hrun).trans rfl⟩

/-- Every run of the sign-in flow answers `.ok`: either the bare 302 for
an already-authenticated session or the authorize redirect. -/
theorem handleSignIn_cases (cfg : Config) (env : Env) (request : Request)
    (t : List Call) :
    (∃ tr, handleSignIn cfg env request t =
      (.ok { status := "302"
             location := some (jsOrStr request.params.redirect_uri
               ("https://" ++ request.host))
             cacheControl := none
             pragma := none
             setCookies := []
             body := none }, tr)) ∨
    (∃ tr, handleSignIn cfg env request t =
      (.ok (getRedirectToCognitoUserPoolResponse cfg env request
        (jsOrStr request.params.redirect_uri ("https://" ++ request.host))), tr)) := by
  cases htok : getTokensFromCookie cfg request.cookies with
  | error e =>
    exact Or.inr ⟨t, (tryCatchM_run_error (signInTry_run_noTokens htok t)).trans rfl⟩
  | ok tokens =>
    cases hver : env.verify tokens.idToken with
    | some u =>
      exact Or.inl ⟨t, tryCatchM_run_ok (signInTry_run_valid htok hver t)⟩
    | none =>
      exact Or.inr ⟨t, (tryCatchM_run_error (signInTry_run_invalid htok hver t)).trans rfl⟩

/-- Every run of the sign-out flow answers `.ok` with a cookie-clearing
response. -/
theorem handleSignOut_cases (cfg : Config) (env : Env) (request : Request)
    (t : List Call) :
    ∃ ts tr, handleSignOut cfg env request t =
      (.ok (clearCookies cfg env request ts), tr) := by
  cases htok : getTokensFromCookie cfg request.cookies with
  | error e =>
    exact ⟨{}, t, (tryCatchM_run_error (signOutTry_run_noTokens htok t)).trans rfl⟩
  | ok tokens =>
    by_cases hrev : env.revokeOk tokens.refreshToken
    · have h := @signOutTry_run_tokens cfg env request tokens htok t
      rw [if_pos hrev] at h
      exact ⟨tokens, _, tryCatchM_run_ok h⟩
    · have h := @signOutTry_run_tokens cfg env request tokens htok t
      rw [if_neg hrev] at h
      exact ⟨{}, _, (tryCatchM_run_error h).trans rfl⟩

/-! ### C3 -/

/-- C3 counterexample: the sign-in flow's already-authenticated redirect
is a 302 carrying neither a Cache-Control nor a Pragma header — refuting
the claim that every 302 of the five flows carries them. -/
theorem signIn_302_without_noCache_counterexample :
    handleSignIn cfgW envW reqSession [] =
      (.ok { status := "302", location := some "https://d.example.com",
             cacheControl := none, pragma := none, setCookies := [],
             body := none }, []) := by
  decide

/-- C3 (amended): every 302 response produced by `handle`,
`handleParseAuth`, `handleRefreshToken` and `handleSignOut` carries
`Cache-Control: no-cache, no-store, max-age=0, must-revalidate` and
`Pragma: no-cache`; `handleSignIn` produces either such a response or its
already-authenticated bare redirect, which carries only a Location. -/
theorem redirects_carry_noCache_headers (cfg : Config) (env : Env) :
    (∀ request t res tr,
      handle cfg env request t = (.ok (.response res), tr) →
      res.cacheControl = some "no-cache, no-store, max-age=0, must-revalidate" ∧
      res.pragma = some "no-cache") ∧
    (∀ request t res tr,
      handleParseAuth cfg env request t = (.ok res, tr) → res.status = "302" →
      res.cacheControl = some "no-cache, no-store, max-age=0, must-revalidate" ∧
      res.pragma = some "no-cache") ∧
    (∀ request t res tr,
      handleRefreshToken cfg env request t = (.ok res, tr) →
      res.cacheControl = some "no-cache, no-store, max-age=0, must-revalidate" ∧
      res.pragma = some "no-cache") ∧
    (∀ request t res tr,
      handleSignOut cfg env request t = (.ok res, tr) →
      res.cacheControl = some "no-cache, no-store, max-age=0, must-revalidate" ∧
      res.pragma = some "no-cache") ∧
    (∀ request t res tr,
      handleSignIn cfg env request t = (.ok res, tr) →
      (res.cacheControl = some "no-cache, no-store, max-age=0, must-revalidate" ∧
        res.pragma = some "no-cache") ∨
      (res.cacheControl = none ∧ res.pragma = none ∧ res.setCookies = [] ∧
        res.location = some (jsOrStr request.params.redirect_uri
          ("https://" ++ request.host)))) := by
  refine ⟨?_, ?_, ?_, ?_, ?_⟩
  · intro request t res tr h
    rcases handle_cases cfg env request t with
      ⟨tr2, hc⟩ | ⟨ts, tr2, hc⟩ | ⟨ts, loc, r, tr2, hred, hc⟩ | ⟨tr2, hc⟩ |
      ⟨e, tr2, hc, -, -⟩
    · have := hc.symm.trans h
      simp at this
    · have := hc.symm.trans h
      simp only [Prod.mk.injEq, Except.ok.injEq, HandleResult.response.injEq] at this
      rw [← this.1]
      exact ⟨(clearCookies_props cfg env request ts).2.1,
        (clearCookies_props cfg env request ts).2.2.1⟩
    · have := hc.symm.trans h
      simp only [Prod.mk.injEq, Except.ok.injEq, HandleResult.response.injEq] at this
      rw [← this.1]
      exact ⟨(getRedirectResponse_ok_props hred).2.1,
        (getRedirectResponse_ok_props hred).2.2.1⟩
    · have := hc.symm.trans h
      simp only [Prod.mk.injEq, Except.ok.injEq, HandleResult.response.injEq] at this
      rw [← this.1]
      exact ⟨(getRedirectToCognitoUserPoolResponse_props cfg env request _).2.1,
        (getRedirectToCognitoUserPoolResponse_props cfg env request _).2.2.1⟩
    · have := hc.symm.trans h
      simp at this
  · intro request t res tr h h302
    rcases handleParseAuth_cases cfg env request t with
      ⟨ts, loc, r, tr2, hred, hc⟩ | ⟨e, tr2, hc⟩
    · have := hc.symm.trans h
      simp only [Prod.mk.injEq, Except.ok.injEq] at this
      rw [← this.1]
      exact ⟨(getRedirectResponse_ok_props hred).2.1,
        (getRedirectResponse_ok_props hred).2.2.1⟩
    · have := hc.symm.trans h
      simp only [Prod.mk.injEq, Except.ok.injEq] at this
      rw [← this.1] at h302
      simp at h302
  · intro request t res tr h
    rcases handleRefreshToken_cases cfg env request t with
      ⟨ts, loc, r, tr2, hred, hc⟩ | ⟨tr2, hc⟩
    · have := hc.symm.trans h
      simp only [Prod.mk.injEq, Except.ok.injEq] at this
      rw [← this.1]
      exact ⟨(getRedirectResponse_ok_props hred).2.1,
        (getRedirectResponse_ok_props hred).2.2.1⟩
    · have := hc.symm.trans h
      simp only [Prod.mk.injEq, Except.ok.injEq] at this
      rw [← this.1]
      exact ⟨(getRedirectToCognitoUserPoolResponse_props cfg env request _).2.1,
        (getRedirectToCognitoUserPoolResponse_props cfg env request _).2.2.1⟩
  · intro request t res tr h
    rcases handleSignOut_cases cfg env request t with ⟨ts, tr2, hc⟩
    have := hc.symm.trans h
    simp only [Prod.mk.injEq, Except.ok.injEq] at this
    rw [← this.1]
    exact ⟨(clearCookies_props cfg env request ts).2.1,
      (clearCookies_props cfg env request ts).2.2.1⟩
  · intro request t res tr h
    rcases handleSignIn_cases cfg env request t with ⟨tr2, hc⟩ | ⟨tr2, hc⟩
    · have := hc.symm.trans h
      simp only [Prod.mk.injEq, Except.ok.injEq] at this
      rw [← this.1]
      exact Or.inr ⟨rfl, rfl, rfl, rfl⟩
    · have := hc.symm.trans h
      simp only [Prod.mk.injEq, Except.ok.injEq] at this
      rw [← this.1]
      exact Or.inl ⟨(getRedirectToCognitoUserPoolResponse_props cfg env request _).2.1,
        (getRedirectToCognitoUserPoolResponse_props cfg env request _).2.2.1⟩

/-- Witness for C3 (amended): on a concrete sign-out run, the returned
response carries both no-cache headers. -/
theorem redirects_carry_noCache_headers_witness :
    (clearCookies cfgW envW reqOut {}).cacheControl =
      some "no-cache, no-store, max-age=0, must-revalidate" ∧
    (clearCookies cfgW envW reqOut {}).pragma = some "no-cache" :=
  (redirects_carry_noCache_headers cfgW envW).2.2.2.1 reqOut []
    (clearCookies cfgW envW reqOut {}) [.revoke (some "goodref")] (by decide)

/-! ### C7 -/

/-- A request with no cookies and a code the token endpoint rejects. -/
def reqCodeBad : Request :=
  { uri := "/"
    querystring := "code=bad"
    params := { code := some "bad", state := none, redirect_uri := none }
    host := "d.example.com"
    cookies := none }

/-- C7 counterexample: an unauthenticated request with a failing code
exchange makes the default gate end in an uncaught error instead of a
forward, redirect or cookie-clear response — refuting the claim that
every failure inside `handle` is converted. -/
theorem handle_uncaught_exchange_error_counterexample :
    handle cfgW envW reqCodeBad [] =
      (.error .exchangeFailed,
        [.exchangeCode "https://d.example.com" (some "bad")]) := by
  decide

/-- C7 (amended): the callback flow always answers `.ok`, with either a
302 or a 400 whose body carries the error description; the sign-in,
refresh and sign-out flows always answer `.ok` (a redirect or a
cookie-clear response); the default gate also converts every failure,
except on its unauthenticated code-exchange path: an uncaught error can
escape `handle` only when the request is off the logout path and carries
a truthy `code` parameter. -/
theorem only_parseAuth_surfaces_errors (cfg : Config) (env : Env)
    (request : Request) (t : List Call) :
    (∃ res tr, handleParseAuth cfg env request t = (.ok res, tr) ∧
      (res.status = "302" ∨
        (res.status = "400" ∧ ∃ e : AuthError, res.body = some e.describe))) ∧
    (∃ res tr, handleSignIn cfg env request t = (.ok res, tr)) ∧
    (∃ res tr, handleRefreshToken cfg env request t = (.ok res, tr)) ∧
    (∃ res tr, handleSignOut cfg env request t = (.ok res, tr)) ∧
    (∀ e tr, handle cfg env request t = (.error e, tr) →
      logoutMatch cfg request = false ∧ truthy request.params.code = true) := by
  refine ⟨?_, ?_, ?_, ?_, ?_⟩
  · rcases handleParseAuth_cases cfg env request t with
      ⟨ts, loc, r, tr, hred, hc⟩ | ⟨e, tr, hc⟩
    · exact ⟨r, tr, hc, Or.inl (getRedirectResponse_ok_props hred).1⟩
    · exact ⟨_, tr, hc, Or.inr ⟨rfl, e, rfl⟩⟩
  · rcases handleSignIn_cases cfg env request t with ⟨tr, hc⟩ | ⟨tr, hc⟩ <;>
      exact ⟨_, tr, hc⟩
  · rcases handleRefreshToken_cases cfg env request t with
      ⟨ts, loc, r, tr, hred, hc⟩ | ⟨tr, hc⟩ <;> exact ⟨_, tr, hc⟩
  · rcases handleSignOut_cases cfg env request t with ⟨ts, tr, hc⟩
    exact ⟨_, tr, hc⟩
  · intro e tr h
    rcases handle_cases cfg env request t with
      ⟨tr2, hc⟩ | ⟨ts, tr2, hc⟩ | ⟨ts, loc, r, tr2, hred, hc⟩ | ⟨tr2, hc⟩ |
      ⟨e2, tr2, hc, hc1, hc2⟩
    · have := hc.symm.trans h
      simp at this
    · have := hc.symm.trans h
      simp at this
    · have := hc.symm.trans h
      simp at this
    · have := hc.symm.trans h
      simp at this
    · exact ⟨hc1, hc2⟩

/-- Witness for C7 (amended): at the concrete uncaught-error run of the
default gate, the escape conditions hold (no logout match, truthy code
parameter). -/
theorem only_parseAuth_surfaces_errors_witness :
    logoutMatch cfgW reqCodeBad = false ∧
    truthy reqCodeBad.params.code = true :=
  (only_parseAuth_surfaces_errors cfgW envW reqCodeBad []).2.2.2.2
    .exchangeFailed [.exchangeCode "https://d.example.com" (some "bad")]
    (by decide)

/-! ### C5 -/

/-- Recognize a refresh-token exchange in the call trace. -/
def isRefreshCall : Call → Bool
  | .exchangeRefresh _ _ => true
  | _ => false

theorem handleCatch_trace (cfg : Config) (env : Env) (request : Request)
    (uri : String) (e : AuthError) (t : List Call) :
    (handleCatch cfg env request uri e t).2 = t ∨
    (handleCatch cfg env request uri e t).2 =
      t ++ [.exchangeCode uri request.params.code] := by
  unfold handleCatch
  by_cases hlog : logoutMatch cfg request
  · rw [if_pos hlog]
    exact Or.inl rfl
  · rw [if_neg hlog]
    by_cases hcode : truthy request.params.code
    · rw [if_pos hcode]
      cases hex : env.exchangeCode uri request.params.code with
      | none =>
        rw [bindM_run_error (show fetchTokensFromCode env uri request.params.code t = (.error .exchangeFailed, t ++ [.exchangeCode uri request.params.code]) by rw [fetchTokensFromCode_run, hex])]
        exact Or.inr rfl
      | some resp =>
        rw [bindM_run_ok (show fetchTokensFromCode env uri request.params.code t = (.ok (⟨resp.id_token, resp.access_token, resp.refresh_token⟩ : TokenSet), t ++ [.exchangeCode uri request.params.code]) by rw [fetchTokensFromCode_run, hex])]
        cases hst : getRedirectUriFromState cfg request.params.state with
        | error e2 =>
          rw [bindM_run_error (liftE_run_error rfl _)]
          exact Or.inr rfl
        | ok loc =>
          rw [bindM_run_ok (liftE_run_ok rfl _)]
          cases hred : getRedirectResponse cfg env
              (⟨resp.id_token, resp.access_token, resp.refresh_token⟩ : TokenSet)
              request.host loc with
          | ok r =>
            rw [bindM_run_ok (liftE_run_ok rfl _)]
            exact Or.inr rfl
          | error e3 =>
            rw [bindM_run_error (liftE_run_error rfl _)]
            exact Or.inr rfl
    · rw [if_neg hcode]
      exact Or.inl rfl

theorem getRedirectResponse_ok_idCookie {cfg : Config} {env : Env}
    {tokens : TokenSet} {domain : String} {loc : Option String} {r : Response}
    {u : String} (hver : env.verify tokens.idToken = some u)
    (h : getRedirectResponse cfg env tokens domain loc = .ok r) :
    (⟨cfg.cookieBase ++ "." ++ u ++ ".idToken", tokens.idToken,
      getOverridenCookieAttributes cfg env.now (sessionCookieAttrs cfg env domain)
        .idToken⟩ : SetCookie) ∈ r.setCookies := by
  unfold getRedirectResponse at h
  rw [hver] at h
  simp only [Except.ok.injEq] at h
  subst h
  simp [List.mem_append, List.mem_cons]

theorem cognito_cookies_not_session (cfg : Config) (env : Env)
    (request : Request) (uri : String) :
    ∀ c ∈ (getRedirectToCognitoUserPoolResponse cfg env request uri).setCookies,
      strEnds c.name ".idToken" = false ∧
      strEnds c.name ".accessToken" = false ∧
      strEnds c.name ".refreshToken" = false ∧
      strEnds c.name ".tokenScopesString" = false ∧
      strEnds c.name ".LastAuthUser" = false := by
  intro c hc
  unfold getRedirectToCognitoUserPoolResponse at hc
  cases hcs : cfg.csrfProtection with
  | none =>
    rw [hcs] at hc
    simp at hc
  | some csrf =>
    rw [hcs] at hc
    simp only [Option.map, List.mem_cons, List.not_mem_nil, or_false] at hc
    rcases hc with rfl | rfl | rfl <;>
      exact ⟨strEnds_append2_ne _ _ _ (by decide) (by decide),
        strEnds_append2_ne _ _ _ (by decide) (by decide),
        strEnds_append2_ne _ _ _ (by decide) (by decide),
        strEnds_append2_ne _ _ _ (by decide) (by decide),
        strEnds_append2_ne _ _ _ (by decide) (by decide)⟩

/-- A request with an unverifiable id token, a refresh token the token
endpoint rejects, and a code parameter the token endpoint accepts. -/
def reqC5 : Request :=
  { uri := "/x"
    querystring := "code=okcode"
    params := { code := some "okcode", state := none, redirect_uri := none }
    host := "d.example.com"
    cookies := some
      [ ⟨"CognitoIdentityServiceProvider.app.alice.idToken", "expired"⟩,
        ⟨"CognitoIdentityServiceProvider.app.alice.refreshToken", "badref"⟩ ] }

/-- C5 counterexample: with an invalid ID token and a present refresh
token whose refresh exchange fails, `handle` does not leave the session
cookies untouched when the request also carries a valid `code` parameter:
it falls through to the code exchange and answers a redirect that sets
all five session cookies — refuting the claim that a failed refresh
exchange implies no session-cookie mutation. -/
theorem handle_refreshFail_sets_cookies_counterexample :
    envW.verify (some "expired") = none ∧
    envW.exchangeRefresh "https://d.example.com" (some "badref") = none ∧
    ((handle cfgNoCsrf envW reqC5 []).1.map fun hr =>
      match hr with
      | .response r => r.setCookies.map fun c => SetCookie.name c
      | .forward _ => []) =
      .ok [ "CognitoIdentityServiceProvider.app.alice.accessToken",
            "CognitoIdentityServiceProvider.app.alice.idToken",
            "CognitoIdentityServiceProvider.app.alice.refreshToken",
            "CognitoIdentityServiceProvider.app.alice.tokenScopesString",
            "CognitoIdentityServiceProvider.app.LastAuthUser" ] := by
  decide

/-- C5 (amended): for a session with an unverifiable ID token and a
present refresh token (off the logout path), `handle` performs exactly
one refresh-token exchange; when that exchange succeeds and the fresh ID
token verifies, it answers a 302 setting fresh session cookies; when the
exchange fails and no `code` parameter is present, it answers the
authorize redirect whose cookies include no session cookie (the refresh
token is treated as absent for this call only; with a `code` parameter
the call falls through to the code-exchange path). -/
theorem handle_refresh_behavior (cfg : Config) (env : Env) (request : Request)
    (tokens : TokenSet)
    (htok : getTokensFromCookie cfg request.cookies = .ok tokens)
    (hlog : logoutMatch cfg request = false)
    (hver : env.verify tokens.idToken = none)
    (hrt : truthy tokens.refreshToken = true) :
    ((handle cfg env request []).2.countP isRefreshCall = 1) ∧
    (∀ resp r u,
      env.exchangeRefresh ("https://" ++ request.host) tokens.refreshToken
        = some resp →
      getRedirectResponse cfg env
        (⟨resp.id_token, resp.access_token, none⟩ : TokenSet)
        request.host (some request.uri) = .ok r →
      env.verify resp.id_token = some u →
      handle cfg env request [] = (.ok (.response r),
        [.exchangeRefresh ("https://" ++ request.host) tokens.refreshToken]) ∧
      r.status = "302" ∧
      (⟨cfg.cookieBase ++ "." ++ u ++ ".idToken", resp.id_token,
        getOverridenCookieAttributes cfg env.now
          (sessionCookieAttrs cfg env request.host) .idToken⟩ : SetCookie)
        ∈ r.setCookies) ∧
    (env.exchangeRefresh ("https://" ++ request.host) tokens.refreshToken = none →
      truthy request.params.code = false →
      handle cfg env request [] = (.ok (.response
        (getRedirectToCognitoUserPoolResponse cfg env request
          ("https://" ++ request.host))),
        [.exchangeRefresh ("https://" ++ request.host) tokens.refreshToken]) ∧
      ∀ c ∈ (getRedirectToCognitoUserPoolResponse cfg env request
          ("https://" ++ request.host)).setCookies,
        strEnds c.name ".idToken" = false ∧
        strEnds c.name ".accessToken" = false ∧
        strEnds c.name ".refreshToken" = false ∧
        strEnds c.name ".tokenScopesString" = false ∧
        strEnds c.name ".LastAuthUser" = false) := by
  refine ⟨?_, ?_, ?_⟩
  · unfold handle
    cases hex : env.exchangeRefresh ("https://" ++ request.host)
        tokens.refreshToken with
    | some resp =>
      cases hred : getRedirectResponse cfg env
          (⟨resp.id_token, resp.access_token, none⟩ : TokenSet)
          request.host (some request.uri) with
      | ok r =>
        rw [tryCatchM_run_ok (handleTry_run_refresh_ok htok hlog hver hrt hex hred [])]
        rfl
      | error e =>
        have hrun := tryCatchM_run_error (g := handleCatch cfg env request
          ("https://" ++ request.host))
          (handleTry_run_refresh_badToken htok hlog hver hrt hex hred [])
        rw [hrun]
        rcases handleCatch_trace cfg env request ("https://" ++ request.host) e
          ([] ++ [.exchangeRefresh ("https://" ++ request.host)
            tokens.refreshToken]) with h2 | h2 <;> rw [h2] <;> rfl
    | none =>
      have hrun := tryCatchM_run_error (g := handleCatch cfg env request
        ("https://" ++ request.host))
        (handleTry_run_refresh_fail htok hlog hver hrt hex [])
      rw [hrun]
      rcases handleCatch_trace cfg env request ("https://" ++ request.host)
        .refreshFailed ([] ++ [.exchangeRefresh ("https://" ++ request.host)
          tokens.refreshToken]) with h2 | h2 <;> rw [h2] <;> rfl
  · intro resp r u hex hred hver2
    exact ⟨tryCatchM_run_ok (handleTry_run_refresh_ok htok hlog hver hrt hex hred []),
      (getRedirectResponse_ok_props hred).1,
      getRedirectResponse_ok_idCookie hver2 hred⟩
  · intro hex hcode
    have hrun := tryCatchM_run_error (g := handleCatch cfg env request
      ("https://" ++ request.host))
      (handleTry_run_refresh_fail htok hlog hver hrt hex [])
    exact ⟨hrun.trans (handleCatch_run_cognito env _ _ _ hlog hcode),
      cognito_cookies_not_session cfg env request _⟩

/-- A request with an unverifiable id token and a refresh token the
token endpoint accepts, and no code parameter. -/
def reqRef : Request :=
  { uri := "/page"
    querystring := ""
    params := { code := none, state := none, redirect_uri := none }
    host := "d.example.com"
    cookies := some
      [ ⟨"CognitoIdentityServiceProvider.app.alice.idToken", "expired"⟩,
        ⟨"CognitoIdentityServiceProvider.app.alice.refreshToken", "goodref"⟩ ] }

/-- Witness for C5 (amended): on a concrete expired session, the default
gate performs exactly one refresh exchange. -/
theorem handle_refresh_behavior_witness :
    (handle cfgNoCsrf envW reqRef []).2.countP isRefreshCall = 1 :=
  (handle_refresh_behavior cfgNoCsrf envW reqRef
    { idToken := some "expired", accessToken := none,
      refreshToken := some "goodref" }
    (by decide) (by decide) (by decide) (by decide)).1

end CognitoAtEdge
